import Mathlib

/-!
Verification development for the Groth16 receipt-verification pipeline in
`host/src/main.rs` (risc0 zkVM host binding a BLAKE3-derived public input to a
BN254 Groth16 proof).

Bytes are modelled as `Nat` values (< 256 where produced by the code),
byte strings as `List Nat`, machine words as `Nat` with explicit reduction
modulo 2^32, and field elements of BN254 as `Nat` values reduced modulo the
relevant prime.  Fallible / panicking Rust code is modelled with `Option` and
`Except`.
-/

/-- 2^32, the machine-word modulus for the 32-bit hash word arithmetic. -/
def M32 : Nat := 4294967296

/-- Wrapping 32-bit addition (`u32::wrapping_add`). -/
def wadd (x y : Nat) : Nat := (x + y) % M32

/-- 32-bit right rotation of a word `x < 2^32` by `n` bits (`u32::rotate_right`). -/
def rotr32 (n x : Nat) : Nat := ((x >>> n) ||| (x <<< (32 - n))) % M32

/-- Bitwise complement within 32 bits. -/
def bnot32 (x : Nat) : Nat := x ^^^ 4294967295

/-- Big-endian interpretation of a byte string as a natural number
(the integer that `from_be_bytes` style functions read). -/
def beNat (l : List Nat) : Nat := l.foldl (fun a b => a * 256 + b) 0

/-- Big-endian encoding of `n` into exactly `len` bytes (truncating high bits). -/
def beBytes : Nat → Nat → List Nat
  | 0, _ => []
  | len + 1, n => beBytes len (n / 256) ++ [n % 256]

/-- Split a list into consecutive chunks of `size` bytes; `fuel` bounds the
recursion (any `fuel ≥ l.length` with `size > 0` is enough). -/
def chunksF : Nat → Nat → List Nat → List (List Nat)
  | 0, _, _ => []
  | _, _, [] => []
  | fuel + 1, size, l => l.take size :: chunksF fuel size (l.drop size)

/-- Reverse the bit order of one byte, as `u8::reverse_bits` does
(`src/host/src/main.rs:96`). -/
def reverse_bits8 (b : Nat) : Nat :=
  (List.range 8).foldl (fun acc i => acc + (((b >>> i) &&& 1) <<< (7 - i))) 0

/-! ## SHA-256 (the `sha2::Sha256` hash used by `calculate_succinct_output_prefix`) -/

/-- The 64 SHA-256 round constants (FIPS 180-4). -/
def K256 : List Nat :=
  [1116352408, 1899447441, 3049323471, 3921009573, 961987163, 1508970993, 2453635748, 2870763221,
   3624381080, 310598401, 607225278, 1426881987, 1925078388, 2162078206, 2614888103, 3248222580,
   3835390401, 4022224774, 264347078, 604807628, 770255983, 1249150122, 1555081692, 1996064986,
   2554220882, 2821834349, 2952996808, 3210313671, 3336571891, 3584528711, 113926993, 338241895,
   666307205, 773529912, 1294757372, 1396182291, 1695183700, 1986661051, 2177026350, 2456956037,
   2730485921, 2820302411, 3259730800, 3345764771, 3516065817, 3600352804, 4094571909, 275423344,
   430227734, 506948616, 659060556, 883997877, 958139571, 1322822218, 1537002063, 1747873779,
   1955562222, 2024104815, 2227730452, 2361852424, 2428436474, 2756734187, 3204031479, 3329325298]

/-- The eight SHA-256 working registers. -/
structure Sha256State where
  a : Nat
  b : Nat
  c : Nat
  d : Nat
  e : Nat
  f : Nat
  g : Nat
  h : Nat
  deriving DecidableEq

/-- SHA-256 initial hash value (FIPS 180-4). -/
def sha256Init : Sha256State :=
  ⟨1779033703, 3144134277, 1013904242, 2773480762, 1359893119, 2600822924, 528734635, 1541459225⟩

/-- SHA-256 Σ₀. -/
def bigSigma0 (x : Nat) : Nat := rotr32 2 x ^^^ rotr32 13 x ^^^ rotr32 22 x

/-- SHA-256 Σ₁. -/
def bigSigma1 (x : Nat) : Nat := rotr32 6 x ^^^ rotr32 11 x ^^^ rotr32 25 x

/-- SHA-256 σ₀. -/
def smallSigma0 (x : Nat) : Nat := rotr32 7 x ^^^ rotr32 18 x ^^^ (x >>> 3)

/-- SHA-256 σ₁. -/
def smallSigma1 (x : Nat) : Nat := rotr32 17 x ^^^ rotr32 19 x ^^^ (x >>> 10)

/-- SHA-256 Ch. -/
def chFun (x y z : Nat) : Nat := (x &&& y) ^^^ (bnot32 x &&& z)

/-- SHA-256 Maj. -/
def majFun (x y z : Nat) : Nat := (x &&& y) ^^^ (x &&& z) ^^^ (y &&& z)

/-- Pack a byte string into big-endian 32-bit words (`fuel` bounds recursion). -/
def toWordsBE : Nat → List Nat → List Nat
  | 0, _ => []
  | _, [] => []
  | fuel + 1, b0 :: b1 :: b2 :: b3 :: rest =>
      (((b0 * 256 + b1) * 256 + b2) * 256 + b3) :: toWordsBE fuel rest
  | _ + 1, _ => []

/-- Extend a 16-word message block to the full 64-word SHA-256 schedule. -/
def scheduleExt : Nat → List Nat → List Nat
  | 0, w => w
  | fuel + 1, w =>
      let n := w.length
      let next := wadd (wadd (smallSigma1 (w.getD (n - 2) 0)) (w.getD (n - 7) 0))
                       (wadd (smallSigma0 (w.getD (n - 15) 0)) (w.getD (n - 16) 0))
      scheduleExt fuel (w ++ [next])

/-- The 64-word message schedule of one 64-byte block. -/
def sha256Schedule (block : List Nat) : List Nat := scheduleExt 48 (toWordsBE 64 block)

/-- One SHA-256 round. -/
def sha256Round (s : Sha256State) (kt wt : Nat) : Sha256State :=
  let t1 := wadd s.h (wadd (bigSigma1 s.e) (wadd (chFun s.e s.f s.g) (wadd kt wt)))
  let t2 := wadd (bigSigma0 s.a) (majFun s.a s.b s.c)
  ⟨wadd t1 t2, s.a, s.b, s.c, wadd s.d t1, s.e, s.f, s.g⟩

/-- The SHA-256 compression function applied to one 64-byte block. -/
def sha256Compress (s : Sha256State) (block : List Nat) : Sha256State :=
  let w := sha256Schedule block
  let t := (List.range 64).foldl (fun st i => sha256Round st (K256.getD i 0) (w.getD i 0)) s
  ⟨wadd s.a t.a, wadd s.b t.b, wadd s.c t.c, wadd s.d t.d,
   wadd s.e t.e, wadd s.f t.f, wadd s.g t.g, wadd s.h t.h⟩

/-- Big-endian bytes of one 32-bit word. -/
def word4BE (w : Nat) : List Nat :=
  [(w >>> 24) &&& 255, (w >>> 16) &&& 255, (w >>> 8) &&& 255, w &&& 255]

/-- Serialize the SHA-256 state to its 32-byte digest. -/
def sha256StateBytes (s : Sha256State) : List Nat :=
  word4BE s.a ++ word4BE s.b ++ word4BE s.c ++ word4BE s.d ++
  word4BE s.e ++ word4BE s.f ++ word4BE s.g ++ word4BE s.h

/-- SHA-256 padding: append `128`, zeros to 56 mod 64, and the 64-bit
big-endian bit length. -/
def sha256Pad (msg : List Nat) : List Nat :=
  msg ++ 128 :: List.replicate ((64 + 55 - msg.length % 64) % 64) 0 ++ beBytes 8 (8 * msg.length)

/-- SHA-256 of a byte string: the function computed by `sha2::Sha256`
(`Sha256::new` / `update` / `finalize` in `src/host/src/main.rs:109-117`). -/
def sha256 (msg : List Nat) : List Nat :=
  let padded := sha256Pad msg
  sha256StateBytes ((chunksF padded.length 64 padded).foldl sha256Compress sha256Init)

/-! ## BLAKE3 (the `blake3::Hasher` hash used to derive the public input) -/

/-- The BLAKE3 initialization vector (shared with the SHA-256 IV). -/
def b3IV : List Nat :=
  [1779033703, 3144134277, 1013904242, 2773480762, 1359893119, 2600822924, 528734635, 1541459225]

/-- The BLAKE3 message word permutation. -/
def b3Perm : List Nat := [2, 6, 3, 10, 7, 0, 4, 13, 1, 11, 12, 5, 9, 14, 15, 8]

/-- The BLAKE3 quarter-round `g` on a 16-word state (positions `a b c d`,
message words `mx my`). -/
def b3g (st : List Nat) (a b c d mx my : Nat) : List Nat :=
  let sa := wadd (wadd (st.getD a 0) (st.getD b 0)) mx
  let sd := rotr32 16 ((st.getD d 0) ^^^ sa)
  let sc := wadd (st.getD c 0) sd
  let sb := rotr32 12 ((st.getD b 0) ^^^ sc)
  let sa2 := wadd (wadd sa sb) my
  let sd2 := rotr32 8 (sd ^^^ sa2)
  let sc2 := wadd sc sd2
  let sb2 := rotr32 7 (sb ^^^ sc2)
  (((st.set a sa2).set b sb2).set c sc2).set d sd2

/-- One full BLAKE3 round (columns then diagonals). -/
def b3round (st m : List Nat) : List Nat :=
  let s1 := b3g st 0 4 8 12 (m.getD 0 0) (m.getD 1 0)
  let s2 := b3g s1 1 5 9 13 (m.getD 2 0) (m.getD 3 0)
  let s3 := b3g s2 2 6 10 14 (m.getD 4 0) (m.getD 5 0)
  let s4 := b3g s3 3 7 11 15 (m.getD 6 0) (m.getD 7 0)
  let s5 := b3g s4 0 5 10 15 (m.getD 8 0) (m.getD 9 0)
  let s6 := b3g s5 1 6 11 12 (m.getD 10 0) (m.getD 11 0)
  let s7 := b3g s6 2 7 8 13 (m.getD 12 0) (m.getD 13 0)
  b3g s7 3 4 9 14 (m.getD 14 0) (m.getD 15 0)

/-- Permute the message words between rounds. -/
def b3permute (m : List Nat) : List Nat := b3Perm.map (fun i => m.getD i 0)

/-- The BLAKE3 compression function: 8-word chaining value, 16-word block,
64-bit counter, block length and flags; returns the 16-word output. -/
def b3compress (cv block : List Nat) (counter blockLen flags : Nat) : List Nat :=
  let st0 := cv.take 8 ++ b3IV.take 4 ++
             [counter % M32, (counter >>> 32) % M32, blockLen, flags]
  let p := (List.range 7).foldl
            (fun (p : List Nat × List Nat) _ => (b3round p.1 p.2, b3permute p.2)) (st0, block)
  let st := p.1
  (List.range 8).map (fun i => (st.getD i 0) ^^^ (st.getD (i + 8) 0)) ++
  (List.range 8).map (fun i => (st.getD (i + 8) 0) ^^^ (cv.getD i 0))

/-- Little-endian bytes of one 32-bit word. -/
def word4LE (w : Nat) : List Nat :=
  [w &&& 255, (w >>> 8) &&& 255, (w >>> 16) &&& 255, (w >>> 24) &&& 255]

/-- Pack bytes into little-endian 32-bit words (fixed count `fuel`, zero padded). -/
def toWordsLE : Nat → List Nat → List Nat
  | 0, _ => []
  | fuel + 1, l =>
      (l.getD 0 0 + ((l.getD 1 0) <<< 8) + ((l.getD 2 0) <<< 16) + ((l.getD 3 0) <<< 24)) ::
      toWordsLE fuel (l.drop 4)

/-- The 16 message words of one (zero-padded) 64-byte block. -/
def b3blockWords (blk : List Nat) : List Nat := toWordsLE 16 blk

/-- The pending final compression of a BLAKE3 chunk or parent node: its
chaining value, or — with the ROOT flag — the root output bytes. -/
structure B3Output where
  inputCV : List Nat
  blockWords : List Nat
  counter : Nat
  blockLen : Nat
  flags : Nat

/-- 8-word chaining value of a pending node. -/
def B3Output.chainingValue (o : B3Output) : List Nat :=
  (b3compress o.inputCV o.blockWords o.counter o.blockLen o.flags).take 8

/-- First 32 root output bytes of a pending node (output block counter 0,
ROOT flag (8) added). -/
def B3Output.rootBytes (o : B3Output) : List Nat :=
  (((b3compress o.inputCV o.blockWords 0 o.blockLen (o.flags ||| 8)).take 8).map word4LE).flatten

/-- The 64-byte blocks of one chunk (an empty chunk still has one empty block). -/
def b3chunkBlocks (data : List Nat) : List (List Nat) :=
  if data.isEmpty then [[]] else chunksF data.length 64 data

/-- Hash one chunk (≤ 1024 bytes) with chunk counter `t`: chain through all
blocks but the last (CHUNK_START = 1 on the first), and return the pending
final compression with CHUNK_END = 2. -/
def b3chunkOutput (t : Nat) (data : List Nat) : B3Output :=
  let blocks := b3chunkBlocks data
  let r := blocks.dropLast.foldl
            (fun (p : List Nat × Nat) blk =>
              ((b3compress p.1 (b3blockWords blk) t 64 p.2).take 8, 0)) (b3IV, 1)
  let last := blocks.getLast?.getD []
  ⟨r.1, b3blockWords last, t, last.length, 2 ||| r.2⟩

/-- A pending parent node over two child chaining values (PARENT flag = 4). -/
def b3parentOutput (l r : List Nat) : B3Output := ⟨b3IV, l ++ r, 0, 64, 4⟩

/-- Largest power of two that is ≤ `max 1 n` (`fuel` bounds the recursion). -/
def floorPow2 : Nat → Nat → Nat
  | 0, _ => 1
  | fuel + 1, n => if n ≤ 1 then 1 else 2 * floorPow2 fuel (n / 2)

/-- The BLAKE3 hash tree over the input: a single chunk for ≤ 1024 bytes,
otherwise a parent over the largest power-of-two number of chunks that leaves
at least one byte on the right (`fuel` bounds the tree depth). -/
def b3treeOutput : Nat → Nat → List Nat → B3Output
  | 0, t, data => b3chunkOutput t data
  | fuel + 1, t, data =>
      if data.length ≤ 1024 then b3chunkOutput t data
      else
        let chunkCount := (data.length + 1023) / 1024
        let leftChunks := floorPow2 64 (chunkCount - 1)
        let leftLen := leftChunks * 1024
        b3parentOutput ((b3treeOutput fuel t (data.take leftLen)).chainingValue)
                       ((b3treeOutput fuel (t + leftChunks) (data.drop leftLen)).chainingValue)

/-- BLAKE3 (32-byte output) of a byte string: the function computed by
`blake3::Hasher` (`new` / `update` / `finalize` in `src/host/src/main.rs:58-65`). -/
def blake3hash (input : List Nat) : List Nat := (b3treeOutput 64 0 input).rootBytes

/-! ## The BN254 fields and curves (`ark_bn254`)

Field elements of `Fq` are `Nat` values reduced mod `qBn`; `Fq2 = Fq[u]/(u²+1)`
is a pair of coordinates `c0 + c1·u`.  Curve points use the arkworks affine
representation (coordinates plus an infinity flag); scalar multiplication for
the subgroup checks runs in Jacobian coordinates. -/

/-- The BN254 base-field modulus (the order of `ark_bn254::Fq`). -/
def qBn : Nat := 21888242871839275222246405745257275088696311157297823662689037894645226208583

/-- The BN254 scalar-field modulus (the order of `ark_bn254::Fr`),
the scalar field order of the spec. -/
def rBn : Nat := 21888242871839275222246405745257275088548364400416034343698204186575808495617

/-- Addition in `Fq`. -/
def fqAdd (a b : Nat) : Nat := (a + b) % qBn

/-- Subtraction in `Fq`. -/
def fqSub (a b : Nat) : Nat := (a + (qBn - b % qBn)) % qBn

/-- Multiplication in `Fq`. -/
def fqMul (a b : Nat) : Nat := a * b % qBn

/-- An element of the quadratic extension `Fq2 = Fq[u]/(u² + 1)`:
`c0 + c1·u` (arkworks component order). -/
structure Fq2 where
  c0 : Nat
  c1 : Nat
  deriving DecidableEq, BEq

/-- Addition in `Fq2`. -/
def fq2Add (a b : Fq2) : Fq2 := ⟨fqAdd a.c0 b.c0, fqAdd a.c1 b.c1⟩

/-- Subtraction in `Fq2`. -/
def fq2Sub (a b : Fq2) : Fq2 := ⟨fqSub a.c0 b.c0, fqSub a.c1 b.c1⟩

/-- Multiplication in `Fq2` (with `u² = -1`). -/
def fq2Mul (a b : Fq2) : Fq2 :=
  ⟨fqSub (fqMul a.c0 b.c0) (fqMul a.c1 b.c1),
   fqAdd (fqMul a.c0 b.c1) (fqMul a.c1 b.c0)⟩

/-- The field operations a short-Weierstrass curve needs, bundled so the
Jacobian point arithmetic can be written once for `Fq` (G1) and `Fq2` (G2). -/
structure FOps (F : Type) where
  fadd : F → F → F
  fsub : F → F → F
  fmul : F → F → F
  zero : F
  one : F
  isZero : F → Bool

/-- The `Fq` operation bundle. -/
def fqOps : FOps Nat := ⟨fqAdd, fqSub, fqMul, 0, 1, fun x => x == 0⟩

/-- The `Fq2` operation bundle. -/
def fq2Ops : FOps Fq2 :=
  ⟨fq2Add, fq2Sub, fq2Mul, ⟨0, 0⟩, ⟨1, 0⟩, fun x => x.c0 == 0 && x.c1 == 0⟩

/-- A point in Jacobian projective coordinates (`z = 0` is the identity). -/
structure JacPoint (F : Type) where
  x : F
  y : F
  z : F
  deriving DecidableEq

/-- The Jacobian identity point. -/
def jacZero {F : Type} (ops : FOps F) : JacPoint F := ⟨ops.one, ops.one, ops.zero⟩

/-- Jacobian doubling on `y² = x³ + b` (curve coefficient `a = 0`). -/
def jacDouble {F : Type} (ops : FOps F) (p : JacPoint F) : JacPoint F :=
  let A := ops.fmul p.x p.x
  let B := ops.fmul p.y p.y
  let C := ops.fmul B B
  let t := ops.fsub (ops.fmul (ops.fadd p.x B) (ops.fadd p.x B)) (ops.fadd A C)
  let D := ops.fadd t t
  let E := ops.fadd (ops.fadd A A) A
  let F2 := ops.fmul E E
  let X3 := ops.fsub F2 (ops.fadd D D)
  let C4 := ops.fadd (ops.fadd C C) (ops.fadd C C)
  let Y3 := ops.fsub (ops.fmul E (ops.fsub D X3)) (ops.fadd C4 C4)
  let Z3 := ops.fmul (ops.fadd p.y p.y) p.z
  ⟨X3, Y3, Z3⟩

/-- Jacobian addition on `y² = x³ + b` with identity, doubling and inverse
special cases. -/
def jacAdd {F : Type} (ops : FOps F) (p q : JacPoint F) : JacPoint F :=
  if ops.isZero p.z then q
  else if ops.isZero q.z then p
  else
    let Z1Z1 := ops.fmul p.z p.z
    let Z2Z2 := ops.fmul q.z q.z
    let U1 := ops.fmul p.x Z2Z2
    let U2 := ops.fmul q.x Z1Z1
    let S1 := ops.fmul (ops.fmul p.y q.z) Z2Z2
    let S2 := ops.fmul (ops.fmul q.y p.z) Z1Z1
    let H := ops.fsub U2 U1
    let R := ops.fsub S2 S1
    if ops.isZero H then
      if ops.isZero R then jacDouble ops p else ⟨ops.one, ops.one, ops.zero⟩
    else
      let HH := ops.fmul H H
      let HHH := ops.fmul H HH
      let V := ops.fmul U1 HH
      let X3 := ops.fsub (ops.fsub (ops.fmul R R) HHH) (ops.fadd V V)
      let Y3 := ops.fsub (ops.fmul R (ops.fsub V X3)) (ops.fmul S1 HHH)
      let Z3 := ops.fmul (ops.fmul p.z q.z) H
      ⟨X3, Y3, Z3⟩

/-- Fixed-width most-significant-bit-first binary expansion of `n`. -/
def natBitsMSB : Nat → Nat → List Bool
  | 0, _ => []
  | fuel + 1, n => natBitsMSB fuel (n / 2) ++ [n % 2 == 1]

/-- One double-and-add step of Jacobian scalar multiplication. -/
def jacStep {F : Type} (ops : FOps F) (base : JacPoint F) (acc : JacPoint F) (b : Bool) : JacPoint F :=
  let d := jacDouble ops acc
  if b then jacAdd ops d base else d

/-- Double-and-add Jacobian scalar multiplication (bits given MSB first). -/
def jacMul {F : Type} (ops : FOps F) (bits : List Bool) (base : JacPoint F) : JacPoint F :=
  bits.foldl (jacStep ops base) (jacZero ops)

/-- An affine G1 point (`ark_bn254::G1Affine`): coordinates plus infinity flag. -/
structure G1Affine where
  x : Nat
  y : Nat
  infinity : Bool
  deriving DecidableEq, BEq

/-- An affine G2 point (`ark_bn254::G2Affine`). -/
structure G2Affine where
  x : Fq2
  y : Fq2
  infinity : Bool
  deriving DecidableEq, BEq

/-- Affine-to-Jacobian conversion for G1. -/
def g1ToJac (p : G1Affine) : JacPoint Nat :=
  if p.infinity then jacZero fqOps else ⟨p.x, p.y, 1⟩

/-- Affine-to-Jacobian conversion for G2. -/
def g2ToJac (p : G2Affine) : JacPoint Fq2 :=
  if p.infinity then jacZero fq2Ops else ⟨p.x, p.y, ⟨1, 0⟩⟩

/-- The 254 most-significant-first bits of the scalar-field order `rBn`. -/
def rBits : List Bool := natBitsMSB 254 rBn

/-- G1 on-curve test (`y² = x³ + 3`), as the `is_on_curve` of `ark_ec`
(infinity counts as on the curve). -/
def g1IsOnCurve (p : G1Affine) : Bool :=
  p.infinity || (fqMul p.y p.y == fqAdd (fqMul (fqMul p.x p.x) p.x) 3)

/-- The G2 curve coefficient `3 / (9 + u)` of BN254. -/
def g2B : Fq2 :=
  ⟨19485874751759354771024239261021720505790618469301721065564631296452457478373,
   266929791119991161246907387137283842545076965332900288569378510910307636690⟩

/-- G2 on-curve test (with the G2 coefficient), as the `is_on_curve` of `ark_ec`. -/
def g2IsOnCurve (p : G2Affine) : Bool :=
  p.infinity || (fq2Mul p.y p.y == fq2Add (fq2Mul (fq2Mul p.x p.x) p.x) g2B)

/-- G1 subgroup membership (`is_in_correct_subgroup_assuming_on_curve`):
multiplication by the scalar-field order gives the identity. -/
def g1InSubgroup (p : G1Affine) : Bool :=
  fqOps.isZero (jacMul fqOps rBits (g1ToJac p)).z

/-- G2 subgroup membership: multiplication by the scalar-field order gives
the identity (extensionally what `is_in_correct_subgroup_assuming_on_curve`
decides for an on-curve point). -/
def g2InSubgroup (p : G2Affine) : Bool :=
  fq2Ops.isZero (jacMul fq2Ops rBits (g2ToJac p)).z

/-- Model of `G1Affine::new` (`ark_ec` 0.4): constructs the affine point and asserts it
is on the curve and in the prime-order subgroup; the assertion panic is
modelled as `none`. -/
def G1Affine.new (x y : Nat) : Option G1Affine :=
  let p : G1Affine := ⟨x, y, false⟩
  if g1IsOnCurve p && g1InSubgroup p then some p else none

/-- Model of `G2Affine::new`: as for G1, with the validity assertions modelled as
`none` on failure. -/
def G2Affine.new (x y : Fq2) : Option G2Affine :=
  let p : G2Affine := ⟨x, y, false⟩
  if g2IsOnCurve p && g2InSubgroup p then some p else none

/-- Model of `from_be_bytes_mod_order` (arkworks `PrimeField`): interpret a byte string
as a big-endian integer and reduce it modulo `p`. -/
def from_be_bytes_mod_order (p : Nat) (bytes : List Nat) : Nat := beNat bytes % p

/-- Model of `Fq2::from_base_prime_field_elems`: builds `c0 + c1·u` from the
two-element list `[c0, c1]`; any other length gives `None`. -/
def Fq2.from_base_prime_field_elems (l : List Nat) : Option Fq2 :=
  match l with
  | [a, b] => some ⟨a, b⟩
  | _ => none

/-- Model of `ark_groth16::Proof<Bn254>`: the three proof points. -/
structure Proof where
  a : G1Affine
  b : G2Affine
  c : G1Affine
  deriving DecidableEq, BEq

/-- Rust range indexing `&s[a..b]`: the sub-slice when `b ≤ s.length`,
`none` (panic) otherwise. -/
def sliceRange (s : List Nat) (a b : Nat) : Option (List Nat) :=
  if b ≤ s.length then some ((s.drop a).take (b - a)) else none

/-- The sub-slice `s[a..b]` as a total function (what `sliceRange` returns
when in range). -/
def seg (s : List Nat) (a b : Nat) : List Nat := (s.drop a).take (b - a)

/-- Model of `from_seal` (`src/host/src/main.rs:122-154`): decode a Groth16 proof from a
seal byte string.  Slice-indexing panics and the validity-assertion panics
of the point constructors are modelled as `none`. -/
def from_seal (seal_bytes : List Nat) : Option Proof := do
  let xa ← sliceRange seal_bytes 0 32
  let ya ← sliceRange seal_bytes 32 64
  let a ← G1Affine.new (from_be_bytes_mod_order qBn xa) (from_be_bytes_mod_order qBn ya)
  let xb0 ← sliceRange seal_bytes 96 128
  let xb1 ← sliceRange seal_bytes 64 96
  let bx ← Fq2.from_base_prime_field_elems
            [from_be_bytes_mod_order qBn xb0, from_be_bytes_mod_order qBn xb1]
  let yb0 ← sliceRange seal_bytes 160 192
  let yb1 ← sliceRange seal_bytes 128 160
  let by2 ← Fq2.from_base_prime_field_elems
            [from_be_bytes_mod_order qBn yb0, from_be_bytes_mod_order qBn yb1]
  let b ← G2Affine.new bx by2
  let xc ← sliceRange seal_bytes 192 224
  let yc ← sliceRange seal_bytes 224 256
  let c ← G1Affine.new (from_be_bytes_mod_order qBn xc) (from_be_bytes_mod_order qBn yc)
  pure ⟨a, b, c⟩

/-! ## Streaming hasher models

The `sha2` and `blake3` streaming APIs (`new` / `update` / `finalize`) are
modelled extensionally: the hasher state is the byte string absorbed so far,
`update` appends, and `finalize` applies the one-shot hash function. -/

/-- The streaming `sha2::Sha256` hasher state. -/
structure Sha256Hasher where
  acc : List Nat

/-- Model of `Sha256::new()`. -/
def Sha256Hasher.new : Sha256Hasher := ⟨[]⟩

/-- Model of `Sha256::update`. -/
def Sha256Hasher.update (hs : Sha256Hasher) (d : List Nat) : Sha256Hasher := ⟨hs.acc ++ d⟩

/-- Model of `Sha256::finalize`. -/
def Sha256Hasher.finalize (hs : Sha256Hasher) : List Nat := sha256 hs.acc

/-- The streaming `blake3::Hasher` state. -/
structure Blake3Hasher where
  acc : List Nat

/-- Model of `blake3::Hasher::new()`. -/
def Blake3Hasher.new : Blake3Hasher := ⟨[]⟩

/-- Model of `blake3::Hasher::update`. -/
def Blake3Hasher.update (hs : Blake3Hasher) (d : List Nat) : Blake3Hasher := ⟨hs.acc ++ d⟩

/-- Model of `blake3::Hasher::finalize`. -/
def Blake3Hasher.finalize (hs : Blake3Hasher) : List Nat := blake3hash hs.acc

/-! ## The output prefix and the public-input scalar -/

/-- Model of `risc0_zkvm::SystemState`: program counter plus memory-image Merkle root
(the root modelled as its 32 digest bytes). -/
structure SystemState where
  pc : Nat
  merkle_root : List Nat

/-- Model of `calculate_succinct_output_prefix` (`src/host/src/main.rs:90-120`).

The three external inputs of the risc0 backend are parameters of the
embedding:
* `stateDigest` — the canonical state-digest function of the backend
  (`SystemState::digest::<risc0_zkvm::sha::Impl>` followed by the
  digest-to-bytes conversion);
* `succinct_control_root` — the 32 digest bytes of
  `SuccinctReceiptVerifierParameters::default().control_root`;
* `bn254_identity_control_id` — the 32 bytes of
  `risc0_circuit_recursion::control_id::BN254_IDENTITY_CONTROL_ID`.

The function itself: reverse the bit order of every control-root byte, build
the success post-state `{ pc = 0, merkle_root = Digest::default() }` (the
all-zero digest), and SHA-256 the four 32-byte strings in order. -/
def calculate_succinct_output_prefix (stateDigest : SystemState → List Nat)
    (succinct_control_root bn254_identity_control_id : List Nat)
    (method_id : List Nat) : List Nat :=
  let succinct_control_root_bytes := succinct_control_root.map reverse_bits8
  let pre_state_bytes := method_id
  let control_id_bytes := bn254_identity_control_id
  let post_state : SystemState := ⟨0, List.replicate 32 0⟩
  let post_state_bytes := stateDigest post_state
  (((( Sha256Hasher.new.update succinct_control_root_bytes).update
      pre_state_bytes).update post_state_bytes).update control_id_bytes).finalize

/-- Model of `expected_output_bytes` (`src/host/src/main.rs:58-65`): BLAKE3 of the
output prefix followed by the journal bytes, truncated to the first 31 bytes.
The prefix argument stands for `calculate_succinct_output_prefix(METHOD_ID)`. -/
def expected_output_bytes (pfx journal : List Nat) : List Nat :=
  ((( Blake3Hasher.new.update pfx).update journal).finalize).take 31

/-- Model of `public_input_scalar` (`src/host/src/main.rs:73-74`):
`Fr::from_be_bytes_mod_order(&expected_output_bytes)`. -/
def public_input_scalar (pfx journal : List Nat) : Nat :=
  from_be_bytes_mod_order rBn (expected_output_bytes pfx journal)

/-! ## The Groth16 verifying key and `verify_proof` (`ark_groth16`) -/

/-- Model of `ark_groth16::VerifyingKey<Bn254>`. -/
structure VerifyingKey where
  alpha_g1 : G1Affine
  beta_g2 : G2Affine
  gamma_g2 : G2Affine
  delta_g2 : G2Affine
  gamma_abc_g1 : List G1Affine

/-- Model of `get_ark_verifying_key` (`src/host/src/main.rs:156-270`): the fixed
verifying-key constants.  `Fq::from_str` of the decimal literals is the `Nat`
literal itself (all are below `qBn`), and the statically satisfied validity
assertions of the point constructors are justified by `vk_points_valid`
below. -/
def get_ark_verifying_key : VerifyingKey :=
  { alpha_g1 :=
      ⟨20491192805390485299153009773594534940189261866228447918068658471970481763042,
       9383485363053290200918347156157836566562967994039712273449902621266178545958, false⟩
    beta_g2 :=
      ⟨⟨6375614351688725206403948262868962793625744043794305715222011528459656738731,
        4252822878758300859123897981450591353533073413197771768651442665752259397132⟩,
       ⟨10505242626370262277552901082094356697409835680220590971873171140371331206856,
        21847035105528745403288232691147584728191162732299865338377159692350059136679⟩, false⟩
    gamma_g2 :=
      ⟨⟨10857046999023057135944570762232829481370756359578518086990519993285655852781,
        11559732032986387107991004021392285783925812861821192530917403151452391805634⟩,
       ⟨8495653923123431417604973247489272438418190587263600148770280649306958101930,
        4082367875863433681332203403145435568316851327593401208105741076214120093531⟩, false⟩
    delta_g2 :=
      ⟨⟨19928663713463533589216209779412278386769407450988172849262535478593422929698,
        19916519943909223643323234301580053157586699704876134064841182937085943926141⟩,
       ⟨4584600978911428195337731119171761277167808711062125916470525050324985708782,
        903010326261527050999816348900764705196723158942686053018929539519969664840⟩, false⟩
    gamma_abc_g1 :=
      [⟨6698887085900109660417671413804888867145870700073340970189635830129386206569,
        10431087902009508261375793061696708147989126018612269070732549055898651692604, false⟩,
       ⟨20225609417084538563062516991929114218412992453664808591983416996515711931386,
        3236310410959095762960658876334609343091075204896196791007975095263664214628, false⟩] }

/-- Model of `ark_relations::SynthesisError` (the two variants `verify_proof` can
produce). -/
inductive SynthesisError where
  | MalformedVerifyingKey
  | UnexpectedIdentity
  deriving DecidableEq, BEq

/-- Model of `Groth16::prepare_inputs`: checks the input count against
`vk.gamma_abc_g1`, then folds `gamma_abc[0] + Σ inputs[i]·gamma_abc[i+1]`
in projective coordinates. -/
def prepare_inputs (vk : VerifyingKey) (public_inputs : List Nat) :
    Except SynthesisError (JacPoint Nat) :=
  if public_inputs.length + 1 ≠ vk.gamma_abc_g1.length then
    .error .MalformedVerifyingKey
  else
    .ok ((public_inputs.zip vk.gamma_abc_g1.tail).foldl
      (fun acc ib => jacAdd fqOps acc (jacMul fqOps (natBitsMSB 254 ib.1) (g1ToJac ib.2)))
      (g1ToJac (vk.gamma_abc_g1.headD ⟨0, 1, true⟩)))

/-- Modular exponentiation (`fuel` bounds the recursion on the exponent). -/
def powMod : Nat → Nat → Nat → Nat → Nat
  | 0, _, _, m => 1 % m
  | fuel + 1, b, e, m =>
      if e = 0 then 1 % m
      else
        let h := powMod fuel b (e / 2) m
        if e % 2 = 1 then h * h % m * b % m else h * h % m

/-- Inversion in `Fq` by Fermat exponentiation. -/
def fqInv (a : Nat) : Nat := powMod 300 a (qBn - 2) qBn

/-- Jacobian-to-affine conversion for G1 (`into_affine`). -/
def g1FromJac (p : JacPoint Nat) : G1Affine :=
  if p.z == 0 then ⟨0, 1, true⟩
  else
    let zinv := fqInv p.z
    let z2 := fqMul zinv zinv
    ⟨fqMul p.x z2, fqMul p.y (fqMul z2 zinv), false⟩

/-- Model of `ark_groth16::PreparedVerifyingKey`, over an abstract target group `GT`
(the pairing outputs): the key, the precomputed `e(alpha, beta)`, and the
prepared negated `gamma`/`delta` G2 points. -/
structure PreparedVerifyingKey (GT : Type) where
  vk : VerifyingKey
  alpha_g1_beta_g2 : GT
  gamma_g2_neg_pc : G2Affine
  delta_g2_neg_pc : G2Affine

/-- Model of `Groth16::verify_proof_with_prepared_inputs`, parameterized by the pairing
primitives of the curve backend: `mml` is the three-pair multi-Miller loop
`(A,B), (vk_x, -γ), (C, -δ)` and `fe` the final exponentiation (returning
`None` exactly when the library signals `UnexpectedIdentity`). -/
def verify_proof_with_prepared_inputs {GT : Type} (eqGT : GT → GT → Bool)
    (mml : G1Affine → G2Affine → G1Affine → G2Affine → G1Affine → G2Affine → GT)
    (fe : GT → Option GT) (pvk : PreparedVerifyingKey GT) (pf : Proof)
    (prepared_inputs : JacPoint Nat) : Except SynthesisError Bool :=
  match fe (mml pf.a pf.b (g1FromJac prepared_inputs) pvk.gamma_g2_neg_pc
              pf.c pvk.delta_g2_neg_pc) with
  | none => .error .UnexpectedIdentity
  | some test => .ok (eqGT test pvk.alpha_g1_beta_g2)

/-- Model of `Groth16::verify_proof` (`src/host/src/main.rs:79-84` call site):
prepare the inputs, then run the pairing check. -/
def verify_proof {GT : Type} (eqGT : GT → GT → Bool)
    (mml : G1Affine → G2Affine → G1Affine → G2Affine → G1Affine → G2Affine → GT)
    (fe : GT → Option GT) (pvk : PreparedVerifyingKey GT) (pf : Proof)
    (public_inputs : List Nat) : Except SynthesisError Bool := do
  let prepared ← prepare_inputs pvk.vk public_inputs
  verify_proof_with_prepared_inputs eqGT mml fe pvk pf prepared

/-! ## Concrete test vectors -/

/-- A concrete 256-byte seal: `A` and `C` are the G1 generator `(1, 2)` and
`B` is the G2 generator, in the seal byte layout (`x.c1` before `x.c0`
within each extension-field coordinate). -/
def genSeal : List Nat :=
  beBytes 32 1 ++ beBytes 32 2 ++
  beBytes 32 11559732032986387107991004021392285783925812861821192530917403151452391805634 ++
  beBytes 32 10857046999023057135944570762232829481370756359578518086990519993285655852781 ++
  beBytes 32 4082367875863433681332203403145435568316851327593401208105741076214120093531 ++
  beBytes 32 8495653923123431417604973247489272438418190587263600148770280649306958101930 ++
  beBytes 32 1 ++ beBytes 32 2

/-- The proof `genSeal` parses to. -/
def genProof : Proof :=
  ⟨⟨1, 2, false⟩,
   ⟨⟨10857046999023057135944570762232829481370756359578518086990519993285655852781,
     11559732032986387107991004021392285783925812861821192530917403151452391805634⟩,
    ⟨8495653923123431417604973247489272438418190587263600148770280649306958101930,
     4082367875863433681332203403145435568316851327593401208105741076214120093531⟩, false⟩,
   ⟨1, 2, false⟩⟩

/-! ### Staged evaluation of the two generator subgroup checks

The 254-step double-and-add folds are evaluated in chunks (the kernel cannot
reduce the whole 254-step chain in one go), with the intermediate Jacobian
points given explicitly. -/

/-- Bits 253..192 of `rBn`. -/
def rbG1a : List Bool := natBitsMSB 62 (rBn >>> 192)

/-- Bits 191..128 of `rBn`. -/
def rbG1b : List Bool := natBitsMSB 64 ((rBn >>> 128) % 18446744073709551616)

/-- Bits 127..64 of `rBn`. -/
def rbG1c : List Bool := natBitsMSB 64 ((rBn >>> 64) % 18446744073709551616)

/-- Bits 63..0 of `rBn`. -/
def rbG1d : List Bool := natBitsMSB 64 (rBn % 18446744073709551616)

set_option maxRecDepth 100000 in
/-- The scalar bits split into the four G1 evaluation chunks. -/
lemma rBits_chunks4 : rBits = rbG1a ++ rbG1b ++ rbG1c ++ rbG1d := by decide

set_option maxRecDepth 100000 in
/-- Stage 1 of the G1 generator subgroup-check fold. -/
lemma g1genStage1 :
    List.foldl (jacStep fqOps ⟨1, 2, 1⟩) (jacZero fqOps) rbG1a =
    (⟨18035808177593990498251239313070694031701473009546774104687139482317977368972, 13269582421903231258605454605958964768090508880656669573709881884136924702155, 14555724996943418794028812094886404737376603058588291328823351704088379687776⟩ : JacPoint Nat) := by decide

set_option maxRecDepth 100000 in
/-- Stage 2 of the G1 generator subgroup-check fold. -/
lemma g1genStage2 :
    List.foldl (jacStep fqOps ⟨1, 2, 1⟩) ((⟨18035808177593990498251239313070694031701473009546774104687139482317977368972, 13269582421903231258605454605958964768090508880656669573709881884136924702155, 14555724996943418794028812094886404737376603058588291328823351704088379687776⟩ : JacPoint Nat)) rbG1b =
    (⟨12011861423249372969894136228577281096371912136250910541696359905640184131779, 1084320640127854837156909227353489206547865528706185153251372268440931282557, 13809978569228949700071905641220973489416668567108723165451956014380098151809⟩ : JacPoint Nat) := by decide

set_option maxRecDepth 100000 in
/-- Stage 3 of the G1 generator subgroup-check fold. -/
lemma g1genStage3 :
    List.foldl (jacStep fqOps ⟨1, 2, 1⟩) ((⟨12011861423249372969894136228577281096371912136250910541696359905640184131779, 1084320640127854837156909227353489206547865528706185153251372268440931282557, 13809978569228949700071905641220973489416668567108723165451956014380098151809⟩ : JacPoint Nat)) rbG1c =
    (⟨15441949312295417160645903082125940295851936131303569668164464996446334192562, 20768305787812271210628938181687788871287174136193698853477244814197957825022, 15410346014019535069340493408724842388930755238650874758257393728864874661751⟩ : JacPoint Nat) := by decide

set_option maxRecDepth 100000 in
/-- Stage 4 of the G1 generator subgroup-check fold. -/
lemma g1genStage4 :
    List.foldl (jacStep fqOps ⟨1, 2, 1⟩) ((⟨15441949312295417160645903082125940295851936131303569668164464996446334192562, 20768305787812271210628938181687788871287174136193698853477244814197957825022, 15410346014019535069340493408724842388930755238650874758257393728864874661751⟩ : JacPoint Nat)) rbG1d =
    (⟨1, 1, 0⟩ : JacPoint Nat) := by decide

/-- The G1 generator `(1, 2)` passes the subgroup check. -/
theorem g1gen_insubgroup : g1InSubgroup ⟨1, 2, false⟩ = true := by
  unfold g1InSubgroup jacMul
  rw [show g1ToJac ⟨1, 2, false⟩ = (⟨1, 2, 1⟩ : JacPoint Nat) from rfl]
  rw [rBits_chunks4, List.foldl_append, List.foldl_append, List.foldl_append,
      g1genStage1, g1genStage2, g1genStage3, g1genStage4]
  decide

/-- Bits 253..224 of `rBn`. -/
def rbG2a : List Bool := natBitsMSB 30 (rBn >>> 224)

/-- Bits 223..192 of `rBn`. -/
def rbG2b : List Bool := natBitsMSB 32 ((rBn >>> 192) % 4294967296)

/-- Bits 191..160 of `rBn`. -/
def rbG2c : List Bool := natBitsMSB 32 ((rBn >>> 160) % 4294967296)

/-- Bits 159..128 of `rBn`. -/
def rbG2d : List Bool := natBitsMSB 32 ((rBn >>> 128) % 4294967296)

/-- Bits 127..96 of `rBn`. -/
def rbG2e : List Bool := natBitsMSB 32 ((rBn >>> 96) % 4294967296)

/-- Bits 95..64 of `rBn`. -/
def rbG2f : List Bool := natBitsMSB 32 ((rBn >>> 64) % 4294967296)

/-- Bits 63..32 of `rBn`. -/
def rbG2g : List Bool := natBitsMSB 32 ((rBn >>> 32) % 4294967296)

/-- Bits 31..0 of `rBn`. -/
def rbG2h : List Bool := natBitsMSB 32 (rBn % 4294967296)

set_option maxRecDepth 100000 in
/-- The scalar bits split into the eight G2 evaluation chunks. -/
lemma rBits_chunks8 :
    rBits = rbG2a ++ rbG2b ++ rbG2c ++ rbG2d ++ rbG2e ++ rbG2f ++ rbG2g ++ rbG2h := by decide

/-- The G2 generator point in Jacobian coordinates. -/
def g2genJ : JacPoint Fq2 :=
  ⟨⟨10857046999023057135944570762232829481370756359578518086990519993285655852781,
    11559732032986387107991004021392285783925812861821192530917403151452391805634⟩,
   ⟨8495653923123431417604973247489272438418190587263600148770280649306958101930,
    4082367875863433681332203403145435568316851327593401208105741076214120093531⟩, ⟨1, 0⟩⟩

set_option maxRecDepth 100000 in
/-- Stage 1 of the G2 generator subgroup-check fold. -/
lemma g2genStage1 :
    List.foldl (jacStep fq2Ops g2genJ) (jacZero fq2Ops) rbG2a =
    (⟨⟨21592454262600994288282896947741596542283905168891331936160603214906194509919, 6409820503580545393137672410970869705111990080144420228631350273381239846105⟩, ⟨5661846456752022590073900817400254869775776865353143563763279303345502471949, 20750436358037756483751153635693060522121696088430620706823924425850378205250⟩, ⟨10401392965083677095139334702963514698847573067105858452742977226476647055879, 7824235670393510533989525967069231348533645259041787252496177590508434025969⟩⟩ : JacPoint Fq2) := by decide

set_option maxRecDepth 100000 in
/-- Stage 2 of the G2 generator subgroup-check fold. -/
lemma g2genStage2 :
    List.foldl (jacStep fq2Ops g2genJ) ((⟨⟨21592454262600994288282896947741596542283905168891331936160603214906194509919, 6409820503580545393137672410970869705111990080144420228631350273381239846105⟩, ⟨5661846456752022590073900817400254869775776865353143563763279303345502471949, 20750436358037756483751153635693060522121696088430620706823924425850378205250⟩, ⟨10401392965083677095139334702963514698847573067105858452742977226476647055879, 7824235670393510533989525967069231348533645259041787252496177590508434025969⟩⟩ : JacPoint Fq2)) rbG2b =
    (⟨⟨2004329874441198374596734234843465489009488782641465713248046417697820830033, 7725102563153751007952291294382666776098028569230119501130870550302123883217⟩, ⟨16374683796048780264275421121165958023021292036104320197347787284671178888533, 2209191509653679063389423349670462607410917383894866238394783863675606686214⟩, ⟨4025500128125257895870143400023552746043165058512766210669889748904587125354, 3356602225134903614065835530773831924019601553420829863729217864164116657878⟩⟩ : JacPoint Fq2) := by decide

set_option maxRecDepth 100000 in
/-- Stage 3 of the G2 generator subgroup-check fold. -/
lemma g2genStage3 :
    List.foldl (jacStep fq2Ops g2genJ) ((⟨⟨2004329874441198374596734234843465489009488782641465713248046417697820830033, 7725102563153751007952291294382666776098028569230119501130870550302123883217⟩, ⟨16374683796048780264275421121165958023021292036104320197347787284671178888533, 2209191509653679063389423349670462607410917383894866238394783863675606686214⟩, ⟨4025500128125257895870143400023552746043165058512766210669889748904587125354, 3356602225134903614065835530773831924019601553420829863729217864164116657878⟩⟩ : JacPoint Fq2)) rbG2c =
    (⟨⟨17740121530955913651687035050748996228349239429625737907808679701821191159380, 19535428340329192236755372330098034191469503049084715551415261577136646303715⟩, ⟨3053119370027248158112964799138036756850857863202376862973220171272190083159, 8871895943871393709298656974247513912211885844200578850245105461092284360111⟩, ⟨14927976046086619757605528963765464073820891963201239058417792899124498856546, 14215366732133591286843795849401592608712658530501845229300652760858745207074⟩⟩ : JacPoint Fq2) := by decide

set_option maxRecDepth 100000 in
/-- Stage 4 of the G2 generator subgroup-check fold. -/
lemma g2genStage4 :
    List.foldl (jacStep fq2Ops g2genJ) ((⟨⟨17740121530955913651687035050748996228349239429625737907808679701821191159380, 19535428340329192236755372330098034191469503049084715551415261577136646303715⟩, ⟨3053119370027248158112964799138036756850857863202376862973220171272190083159, 8871895943871393709298656974247513912211885844200578850245105461092284360111⟩, ⟨14927976046086619757605528963765464073820891963201239058417792899124498856546, 14215366732133591286843795849401592608712658530501845229300652760858745207074⟩⟩ : JacPoint Fq2)) rbG2d =
    (⟨⟨3914204475077161095982729553423736285659045635731422470422325616036982885140, 10439741586870767743307887020172414131291276966341661181108577077462243101241⟩, ⟨6765064280775987044300795376444824805724146567908910398826749745295678571759, 20439833900679714030959840453312267440932834743935767265971265345155630286159⟩, ⟨716495700414440278698050012032755718180293260966922516404335309231883920935, 20876417676238676024888259856631000809777064946569952001388527972264092743850⟩⟩ : JacPoint Fq2) := by decide

set_option maxRecDepth 100000 in
/-- Stage 5 of the G2 generator subgroup-check fold. -/
lemma g2genStage5 :
    List.foldl (jacStep fq2Ops g2genJ) ((⟨⟨3914204475077161095982729553423736285659045635731422470422325616036982885140, 10439741586870767743307887020172414131291276966341661181108577077462243101241⟩, ⟨6765064280775987044300795376444824805724146567908910398826749745295678571759, 20439833900679714030959840453312267440932834743935767265971265345155630286159⟩, ⟨716495700414440278698050012032755718180293260966922516404335309231883920935, 20876417676238676024888259856631000809777064946569952001388527972264092743850⟩⟩ : JacPoint Fq2)) rbG2e =
    (⟨⟨20116982927714475287442878284120410146831069775576739829914587560064034980612, 2126565029833514502282959854006767736230578820672798623376709307179455337765⟩, ⟨2235846309015682437712156487474420313998824513937446650883570925614989208935, 6642038352110693652625603303875039251967952596888435793663767248446533550902⟩, ⟨4797530970506827337961585952987213576816106281349937424124933583921013567116, 919201025517650730124028681154190846652366680012996068094127738743286440810⟩⟩ : JacPoint Fq2) := by decide

set_option maxRecDepth 100000 in
/-- Stage 6 of the G2 generator subgroup-check fold. -/
lemma g2genStage6 :
    List.foldl (jacStep fq2Ops g2genJ) ((⟨⟨20116982927714475287442878284120410146831069775576739829914587560064034980612, 2126565029833514502282959854006767736230578820672798623376709307179455337765⟩, ⟨2235846309015682437712156487474420313998824513937446650883570925614989208935, 6642038352110693652625603303875039251967952596888435793663767248446533550902⟩, ⟨4797530970506827337961585952987213576816106281349937424124933583921013567116, 919201025517650730124028681154190846652366680012996068094127738743286440810⟩⟩ : JacPoint Fq2)) rbG2f =
    (⟨⟨15837211617616038301445960073983782581550978328215727372689991588089065212639, 14314443323435972571064004971392724681468424193838458481755669255089790614801⟩, ⟨8061182286497689067179004961795874953469707792693745235531661512511526079245, 15341991576587789966224814812611595294914226525409368696694080299415203525498⟩, ⟨12074614858507277365419116548449738621651638885389823086728478334074562302893, 13796974232825859744748516946043545856843710644164241356596962542338475893088⟩⟩ : JacPoint Fq2) := by decide

set_option maxRecDepth 100000 in
/-- Stage 7 of the G2 generator subgroup-check fold. -/
lemma g2genStage7 :
    List.foldl (jacStep fq2Ops g2genJ) ((⟨⟨15837211617616038301445960073983782581550978328215727372689991588089065212639, 14314443323435972571064004971392724681468424193838458481755669255089790614801⟩, ⟨8061182286497689067179004961795874953469707792693745235531661512511526079245, 15341991576587789966224814812611595294914226525409368696694080299415203525498⟩, ⟨12074614858507277365419116548449738621651638885389823086728478334074562302893, 13796974232825859744748516946043545856843710644164241356596962542338475893088⟩⟩ : JacPoint Fq2)) rbG2g =
    (⟨⟨20569053086270473772069919027237520955082350930900189864581663756606158824445, 3286090497374891266571544493206109455062443438956568503337084429806784741260⟩, ⟨19249434932942735033878239919062464015975398224567378685621505493331340180729, 5017615522041428603672345561006571356154118424683729589391221367833880322789⟩, ⟨2637800942309395718953267266750660550493072529559727736408823598311661090361, 10199754278483747395178461647050784073950450508520406847356294917985267577230⟩⟩ : JacPoint Fq2) := by decide

set_option maxRecDepth 100000 in
/-- Stage 8 of the G2 generator subgroup-check fold. -/
lemma g2genStage8 :
    List.foldl (jacStep fq2Ops g2genJ) ((⟨⟨20569053086270473772069919027237520955082350930900189864581663756606158824445, 3286090497374891266571544493206109455062443438956568503337084429806784741260⟩, ⟨19249434932942735033878239919062464015975398224567378685621505493331340180729, 5017615522041428603672345561006571356154118424683729589391221367833880322789⟩, ⟨2637800942309395718953267266750660550493072529559727736408823598311661090361, 10199754278483747395178461647050784073950450508520406847356294917985267577230⟩⟩ : JacPoint Fq2)) rbG2h =
    (⟨⟨1, 0⟩, ⟨1, 0⟩, ⟨0, 0⟩⟩ : JacPoint Fq2) := by decide

/-- The G2 generator passes the subgroup check. -/
theorem g2gen_insubgroup : g2InSubgroup ⟨g2genJ.x, g2genJ.y, false⟩ = true := by
  unfold g2InSubgroup jacMul
  rw [show g2ToJac ⟨g2genJ.x, g2genJ.y, false⟩ = g2genJ from rfl]
  rw [rBits_chunks8, List.foldl_append, List.foldl_append, List.foldl_append,
      List.foldl_append, List.foldl_append, List.foldl_append, List.foldl_append,
      g2genStage1, g2genStage2, g2genStage3, g2genStage4, g2genStage5,
      g2genStage6, g2genStage7, g2genStage8]
  decide

/-- The `A` component a seal decodes to. -/
def sealA (s : List Nat) : G1Affine :=
  ⟨from_be_bytes_mod_order qBn (seg s 0 32), from_be_bytes_mod_order qBn (seg s 32 64), false⟩

/-- The `B` component a seal decodes to (note the swapped extension halves:
`c0` from bytes 96..128 and 160..192, `c1` from bytes 64..96 and 128..160). -/
def sealB (s : List Nat) : G2Affine :=
  ⟨⟨from_be_bytes_mod_order qBn (seg s 96 128), from_be_bytes_mod_order qBn (seg s 64 96)⟩,
   ⟨from_be_bytes_mod_order qBn (seg s 160 192), from_be_bytes_mod_order qBn (seg s 128 160)⟩,
   false⟩

/-- The `C` component a seal decodes to. -/
def sealC (s : List Nat) : G1Affine :=
  ⟨from_be_bytes_mod_order qBn (seg s 192 224), from_be_bytes_mod_order qBn (seg s 224 256), false⟩

/-- In-range slicing succeeds with the `seg` sub-list. -/
lemma sliceRange_some {s : List Nat} {a b : Nat} (h : b ≤ s.length) :
    sliceRange s a b = some (seg s a b) := by
  simp [sliceRange, seg, h]

/-- Characterization of `from_seal` on inputs of length ≥ 256: the decoded
points, guarded by the three validity checks. -/
lemma from_seal_char (s : List Nat) (h : 256 ≤ s.length) :
    from_seal s =
      if g1IsOnCurve (sealA s) && g1InSubgroup (sealA s) then
        if g2IsOnCurve (sealB s) && g2InSubgroup (sealB s) then
          if g1IsOnCurve (sealC s) && g1InSubgroup (sealC s) then
            some ⟨sealA s, sealB s, sealC s⟩
          else none
        else none
      else none := by
  have h1 := sliceRange_some (s := s) (a := 0) (b := 32) (by omega)
  have h2 := sliceRange_some (s := s) (a := 32) (b := 64) (by omega)
  have h3 := sliceRange_some (s := s) (a := 96) (b := 128) (by omega)
  have h4 := sliceRange_some (s := s) (a := 64) (b := 96) (by omega)
  have h5 := sliceRange_some (s := s) (a := 160) (b := 192) (by omega)
  have h6 := sliceRange_some (s := s) (a := 128) (b := 160) (by omega)
  have h7 := sliceRange_some (s := s) (a := 192) (b := 224) (by omega)
  have h8 := sliceRange_some (s := s) (a := 224) (b := 256) (by omega)
  simp only [from_seal, h1, h2, h3, h4, h5, h6, h7, h8, Option.bind_eq_bind,
    Option.some_bind, Fq2.from_base_prime_field_elems, G1Affine.new, G2Affine.new,
    sealA, sealB, sealC]
  by_cases hA : g1IsOnCurve ⟨from_be_bytes_mod_order qBn (seg s 0 32),
      from_be_bytes_mod_order qBn (seg s 32 64), false⟩ &&
      g1InSubgroup ⟨from_be_bytes_mod_order qBn (seg s 0 32),
      from_be_bytes_mod_order qBn (seg s 32 64), false⟩ <;>
    by_cases hB : g2IsOnCurve ⟨⟨from_be_bytes_mod_order qBn (seg s 96 128),
        from_be_bytes_mod_order qBn (seg s 64 96)⟩,
        ⟨from_be_bytes_mod_order qBn (seg s 160 192),
        from_be_bytes_mod_order qBn (seg s 128 160)⟩, false⟩ &&
        g2InSubgroup ⟨⟨from_be_bytes_mod_order qBn (seg s 96 128),
        from_be_bytes_mod_order qBn (seg s 64 96)⟩,
        ⟨from_be_bytes_mod_order qBn (seg s 160 192),
        from_be_bytes_mod_order qBn (seg s 128 160)⟩, false⟩ <;>
    by_cases hC : g1IsOnCurve ⟨from_be_bytes_mod_order qBn (seg s 192 224),
        from_be_bytes_mod_order qBn (seg s 224 256), false⟩ &&
        g1InSubgroup ⟨from_be_bytes_mod_order qBn (seg s 192 224),
        from_be_bytes_mod_order qBn (seg s 224 256), false⟩ <;>
    simp [hA, hB, hC]

set_option maxRecDepth 100000 in
/-- The generator-seal coordinate decodings, stated as one evaluation fact. -/
lemma genSeal_decodes : sealA genSeal = ⟨1, 2, false⟩ ∧
    sealB genSeal = ⟨g2genJ.x, g2genJ.y, false⟩ ∧ sealC genSeal = ⟨1, 2, false⟩ := by
  refine ⟨?_, ?_, ?_⟩ <;> decide

set_option maxRecDepth 100000 in
/-- Concrete evaluation: the generator seal parses successfully. -/
theorem from_seal_genSeal : from_seal genSeal = some genProof := by
  rw [from_seal_char genSeal (by decide)]
  rw [genSeal_decodes.1, genSeal_decodes.2.1, genSeal_decodes.2.2]
  rw [g1gen_insubgroup, g2gen_insubgroup]
  rw [show g1IsOnCurve ⟨1, 2, false⟩ = true from by decide]
  rw [show g2IsOnCurve ⟨g2genJ.x, g2genJ.y, false⟩ = true from by decide]
  decide

/-! ### Validity of the hardcoded verifying-key points

The arkworks point constructors in `get_ark_verifying_key` assert the
constants are on-curve and in the prime-order subgroup; these staged
evaluations discharge those assertions, justifying the plain-literal model
of the key. -/

set_option maxRecDepth 100000 in
/-- Stage 1 of the `vkAlpha` subgroup-check fold. -/
lemma vkAlphaStage1 :
    List.foldl (jacStep fqOps ⟨20491192805390485299153009773594534940189261866228447918068658471970481763042, 9383485363053290200918347156157836566562967994039712273449902621266178545958, 1⟩) (jacZero fqOps) rbG1a =
    (⟨21393129484222724558760313241452869793811933185598145717021423904208805466762, 19007355013157008664046312946636957944783639905289878777960095317085224458452, 1184330469427949785153674109925603887325079111987057864678927927483827978184⟩ : JacPoint Nat) := by decide

set_option maxRecDepth 100000 in
/-- Stage 2 of the `vkAlpha` subgroup-check fold. -/
lemma vkAlphaStage2 :
    List.foldl (jacStep fqOps ⟨20491192805390485299153009773594534940189261866228447918068658471970481763042, 9383485363053290200918347156157836566562967994039712273449902621266178545958, 1⟩) ((⟨21393129484222724558760313241452869793811933185598145717021423904208805466762, 19007355013157008664046312946636957944783639905289878777960095317085224458452, 1184330469427949785153674109925603887325079111987057864678927927483827978184⟩ : JacPoint Nat)) rbG1b =
    (⟨11820453208143530831056222736164632577430880755968954077193111889228531936420, 21866111917143493001528535358745525565621744227748859614625379439836205124758, 16024959510803446616314229969182798271532578460930613860485970157382235062281⟩ : JacPoint Nat) := by decide

set_option maxRecDepth 100000 in
/-- Stage 3 of the `vkAlpha` subgroup-check fold. -/
lemma vkAlphaStage3 :
    List.foldl (jacStep fqOps ⟨20491192805390485299153009773594534940189261866228447918068658471970481763042, 9383485363053290200918347156157836566562967994039712273449902621266178545958, 1⟩) ((⟨11820453208143530831056222736164632577430880755968954077193111889228531936420, 21866111917143493001528535358745525565621744227748859614625379439836205124758, 16024959510803446616314229969182798271532578460930613860485970157382235062281⟩ : JacPoint Nat)) rbG1c =
    (⟨21349541841711876310558004419882707118409433334230055813406046031538964477769, 2048777569627598907135450677367139522308441045752084756254617436536070622324, 20839718361610038978882962259716131810405251321378773066639695997160109448627⟩ : JacPoint Nat) := by decide

set_option maxRecDepth 100000 in
/-- Stage 4 of the `vkAlpha` subgroup-check fold. -/
lemma vkAlphaStage4 :
    List.foldl (jacStep fqOps ⟨20491192805390485299153009773594534940189261866228447918068658471970481763042, 9383485363053290200918347156157836566562967994039712273449902621266178545958, 1⟩) ((⟨21349541841711876310558004419882707118409433334230055813406046031538964477769, 2048777569627598907135450677367139522308441045752084756254617436536070622324, 20839718361610038978882962259716131810405251321378773066639695997160109448627⟩ : JacPoint Nat)) rbG1d =
    (⟨1, 1, 0⟩ : JacPoint Nat) := by decide

/-- The `vkAlpha` verifying-key point passes the subgroup check. -/
lemma vkAlpha_insubgroup :
    g1InSubgroup ⟨20491192805390485299153009773594534940189261866228447918068658471970481763042, 9383485363053290200918347156157836566562967994039712273449902621266178545958, false⟩ = true := by
  unfold g1InSubgroup jacMul
  rw [show g1ToJac ⟨20491192805390485299153009773594534940189261866228447918068658471970481763042, 9383485363053290200918347156157836566562967994039712273449902621266178545958, false⟩ =
      (⟨20491192805390485299153009773594534940189261866228447918068658471970481763042, 9383485363053290200918347156157836566562967994039712273449902621266178545958, 1⟩ : JacPoint Nat) from rfl]
  rw [rBits_chunks4, List.foldl_append, List.foldl_append, List.foldl_append,
      vkAlphaStage1, vkAlphaStage2, vkAlphaStage3, vkAlphaStage4]
  decide

set_option maxRecDepth 100000 in
/-- Stage 1 of the `vkAbc0` subgroup-check fold. -/
lemma vkAbc0Stage1 :
    List.foldl (jacStep fqOps ⟨6698887085900109660417671413804888867145870700073340970189635830129386206569, 10431087902009508261375793061696708147989126018612269070732549055898651692604, 1⟩) (jacZero fqOps) rbG1a =
    (⟨4136143947808284720365790472415309129548330502749155022684604033356853424570, 11387201014399130441252770361866060681412163586458747455652641965981539246862, 6298344726207155578346900287716367820907098041915093757313353400640440187644⟩ : JacPoint Nat) := by decide

set_option maxRecDepth 100000 in
/-- Stage 2 of the `vkAbc0` subgroup-check fold. -/
lemma vkAbc0Stage2 :
    List.foldl (jacStep fqOps ⟨6698887085900109660417671413804888867145870700073340970189635830129386206569, 10431087902009508261375793061696708147989126018612269070732549055898651692604, 1⟩) ((⟨4136143947808284720365790472415309129548330502749155022684604033356853424570, 11387201014399130441252770361866060681412163586458747455652641965981539246862, 6298344726207155578346900287716367820907098041915093757313353400640440187644⟩ : JacPoint Nat)) rbG1b =
    (⟨2922742691596951479911547269919130248223525963509228379567709069278749275493, 9438142777951911862109559060421056208855700834060032282501760407005669059190, 4857317329803674674677841234962137102768341006105891470535584408345280147736⟩ : JacPoint Nat) := by decide

set_option maxRecDepth 100000 in
/-- Stage 3 of the `vkAbc0` subgroup-check fold. -/
lemma vkAbc0Stage3 :
    List.foldl (jacStep fqOps ⟨6698887085900109660417671413804888867145870700073340970189635830129386206569, 10431087902009508261375793061696708147989126018612269070732549055898651692604, 1⟩) ((⟨2922742691596951479911547269919130248223525963509228379567709069278749275493, 9438142777951911862109559060421056208855700834060032282501760407005669059190, 4857317329803674674677841234962137102768341006105891470535584408345280147736⟩ : JacPoint Nat)) rbG1c =
    (⟨67886736336587857267138791685933977760263689813374868259359405649451072801, 509699373885411818251481707349974621984362477941392842692090828626881193541, 14122794139928069519265737041678336720723132315157368239913769095944171260066⟩ : JacPoint Nat) := by decide

set_option maxRecDepth 100000 in
/-- Stage 4 of the `vkAbc0` subgroup-check fold. -/
lemma vkAbc0Stage4 :
    List.foldl (jacStep fqOps ⟨6698887085900109660417671413804888867145870700073340970189635830129386206569, 10431087902009508261375793061696708147989126018612269070732549055898651692604, 1⟩) ((⟨67886736336587857267138791685933977760263689813374868259359405649451072801, 509699373885411818251481707349974621984362477941392842692090828626881193541, 14122794139928069519265737041678336720723132315157368239913769095944171260066⟩ : JacPoint Nat)) rbG1d =
    (⟨1, 1, 0⟩ : JacPoint Nat) := by decide

/-- The `vkAbc0` verifying-key point passes the subgroup check. -/
lemma vkAbc0_insubgroup :
    g1InSubgroup ⟨6698887085900109660417671413804888867145870700073340970189635830129386206569, 10431087902009508261375793061696708147989126018612269070732549055898651692604, false⟩ = true := by
  unfold g1InSubgroup jacMul
  rw [show g1ToJac ⟨6698887085900109660417671413804888867145870700073340970189635830129386206569, 10431087902009508261375793061696708147989126018612269070732549055898651692604, false⟩ =
      (⟨6698887085900109660417671413804888867145870700073340970189635830129386206569, 10431087902009508261375793061696708147989126018612269070732549055898651692604, 1⟩ : JacPoint Nat) from rfl]
  rw [rBits_chunks4, List.foldl_append, List.foldl_append, List.foldl_append,
      vkAbc0Stage1, vkAbc0Stage2, vkAbc0Stage3, vkAbc0Stage4]
  decide

set_option maxRecDepth 100000 in
/-- Stage 1 of the `vkAbc1` subgroup-check fold. -/
lemma vkAbc1Stage1 :
    List.foldl (jacStep fqOps ⟨20225609417084538563062516991929114218412992453664808591983416996515711931386, 3236310410959095762960658876334609343091075204896196791007975095263664214628, 1⟩) (jacZero fqOps) rbG1a =
    (⟨21358924257323435572512012050183003893562282465889641045822633539068422117237, 6838640114849853938336688323521349483493720027881995464034572399943799420283, 15290668729630325997320982452150824423969738998986210637304078314954499020078⟩ : JacPoint Nat) := by decide

set_option maxRecDepth 100000 in
/-- Stage 2 of the `vkAbc1` subgroup-check fold. -/
lemma vkAbc1Stage2 :
    List.foldl (jacStep fqOps ⟨20225609417084538563062516991929114218412992453664808591983416996515711931386, 3236310410959095762960658876334609343091075204896196791007975095263664214628, 1⟩) ((⟨21358924257323435572512012050183003893562282465889641045822633539068422117237, 6838640114849853938336688323521349483493720027881995464034572399943799420283, 15290668729630325997320982452150824423969738998986210637304078314954499020078⟩ : JacPoint Nat)) rbG1b =
    (⟨3932745542465996570160986814368727410667271087770148827211320308891065937792, 6403842073462172369486041521960510056954083070738827019487381428573541726574, 13214162831722920270909557199300648837957387171150058924753895709937863864839⟩ : JacPoint Nat) := by decide

set_option maxRecDepth 100000 in
/-- Stage 3 of the `vkAbc1` subgroup-check fold. -/
lemma vkAbc1Stage3 :
    List.foldl (jacStep fqOps ⟨20225609417084538563062516991929114218412992453664808591983416996515711931386, 3236310410959095762960658876334609343091075204896196791007975095263664214628, 1⟩) ((⟨3932745542465996570160986814368727410667271087770148827211320308891065937792, 6403842073462172369486041521960510056954083070738827019487381428573541726574, 13214162831722920270909557199300648837957387171150058924753895709937863864839⟩ : JacPoint Nat)) rbG1c =
    (⟨2131000170934860525742723572890861159281832823279143340600546426676887617903, 7083859627072255959585756720659413940158014538300422749856121676338542843927, 6432613493060843639739696692878300908476015974023657808682821869255861465998⟩ : JacPoint Nat) := by decide

set_option maxRecDepth 100000 in
/-- Stage 4 of the `vkAbc1` subgroup-check fold. -/
lemma vkAbc1Stage4 :
    List.foldl (jacStep fqOps ⟨20225609417084538563062516991929114218412992453664808591983416996515711931386, 3236310410959095762960658876334609343091075204896196791007975095263664214628, 1⟩) ((⟨2131000170934860525742723572890861159281832823279143340600546426676887617903, 7083859627072255959585756720659413940158014538300422749856121676338542843927, 6432613493060843639739696692878300908476015974023657808682821869255861465998⟩ : JacPoint Nat)) rbG1d =
    (⟨1, 1, 0⟩ : JacPoint Nat) := by decide

/-- The `vkAbc1` verifying-key point passes the subgroup check. -/
lemma vkAbc1_insubgroup :
    g1InSubgroup ⟨20225609417084538563062516991929114218412992453664808591983416996515711931386, 3236310410959095762960658876334609343091075204896196791007975095263664214628, false⟩ = true := by
  unfold g1InSubgroup jacMul
  rw [show g1ToJac ⟨20225609417084538563062516991929114218412992453664808591983416996515711931386, 3236310410959095762960658876334609343091075204896196791007975095263664214628, false⟩ =
      (⟨20225609417084538563062516991929114218412992453664808591983416996515711931386, 3236310410959095762960658876334609343091075204896196791007975095263664214628, 1⟩ : JacPoint Nat) from rfl]
  rw [rBits_chunks4, List.foldl_append, List.foldl_append, List.foldl_append,
      vkAbc1Stage1, vkAbc1Stage2, vkAbc1Stage3, vkAbc1Stage4]
  decide

/-- The `vkBeta` G2 point in Jacobian coordinates. -/
def vkBetaJ : JacPoint Fq2 :=
  ⟨⟨6375614351688725206403948262868962793625744043794305715222011528459656738731, 4252822878758300859123897981450591353533073413197771768651442665752259397132⟩, ⟨10505242626370262277552901082094356697409835680220590971873171140371331206856, 21847035105528745403288232691147584728191162732299865338377159692350059136679⟩, ⟨1, 0⟩⟩

set_option maxRecDepth 100000 in
/-- Stage 1 of the `vkBeta` subgroup-check fold. -/
lemma vkBetaStage1 :
    List.foldl (jacStep fq2Ops vkBetaJ) (jacZero fq2Ops) rbG2a =
    (⟨⟨15226365867038987493092222377884253143963223644640813983287893556150488411052, 2807569909318907895804627186527224567311305806398712516378274457427471855217⟩, ⟨7579606643464740551558831435033302904379901003474904067973016282324418413295, 13593577080616240634075463003335972596065426566542448001102457325444567246386⟩, ⟨12308412043898977542269057858285292083552110770360540738806414904092313853983, 20160820340951353404701029546787551174443924198422513626521704096706959271361⟩⟩ : JacPoint Fq2) := by decide

set_option maxRecDepth 100000 in
/-- Stage 2 of the `vkBeta` subgroup-check fold. -/
lemma vkBetaStage2 :
    List.foldl (jacStep fq2Ops vkBetaJ) ((⟨⟨15226365867038987493092222377884253143963223644640813983287893556150488411052, 2807569909318907895804627186527224567311305806398712516378274457427471855217⟩, ⟨7579606643464740551558831435033302904379901003474904067973016282324418413295, 13593577080616240634075463003335972596065426566542448001102457325444567246386⟩, ⟨12308412043898977542269057858285292083552110770360540738806414904092313853983, 20160820340951353404701029546787551174443924198422513626521704096706959271361⟩⟩ : JacPoint Fq2)) rbG2b =
    (⟨⟨13324436140546270401905109906911103616032311048492253210123345566637205143964, 8273102370388317390592151429348179977592769801047062723102951644493824572307⟩, ⟨7304872461999415023864606805993785125017109744112074086398580130245350756977, 20683281424663375619082214575422272358390163184641865385907093836823806472282⟩, ⟨8985245845728391442457309330931498667136670237364710059795568519581748406025, 4850084175855437066276934403836150689130294382654675115098018944147400743634⟩⟩ : JacPoint Fq2) := by decide

set_option maxRecDepth 100000 in
/-- Stage 3 of the `vkBeta` subgroup-check fold. -/
lemma vkBetaStage3 :
    List.foldl (jacStep fq2Ops vkBetaJ) ((⟨⟨13324436140546270401905109906911103616032311048492253210123345566637205143964, 8273102370388317390592151429348179977592769801047062723102951644493824572307⟩, ⟨7304872461999415023864606805993785125017109744112074086398580130245350756977, 20683281424663375619082214575422272358390163184641865385907093836823806472282⟩, ⟨8985245845728391442457309330931498667136670237364710059795568519581748406025, 4850084175855437066276934403836150689130294382654675115098018944147400743634⟩⟩ : JacPoint Fq2)) rbG2c =
    (⟨⟨19073713399415865522970421175734637650776381199732929126404904404606102215654, 19861162619927883278546126849690983601799002868025731686786239967319356420416⟩, ⟨1538363749780422332245748721156256748678339084612375291769220298055657694856, 15354467900809391141433606803102397758035199816147641848217180563140523804121⟩, ⟨9559288148839325997647825585241710738343325342783868840750206680316438849101, 21050892663890832191962990401219938673376557404065990458399833247372274621318⟩⟩ : JacPoint Fq2) := by decide

set_option maxRecDepth 100000 in
/-- Stage 4 of the `vkBeta` subgroup-check fold. -/
lemma vkBetaStage4 :
    List.foldl (jacStep fq2Ops vkBetaJ) ((⟨⟨19073713399415865522970421175734637650776381199732929126404904404606102215654, 19861162619927883278546126849690983601799002868025731686786239967319356420416⟩, ⟨1538363749780422332245748721156256748678339084612375291769220298055657694856, 15354467900809391141433606803102397758035199816147641848217180563140523804121⟩, ⟨9559288148839325997647825585241710738343325342783868840750206680316438849101, 21050892663890832191962990401219938673376557404065990458399833247372274621318⟩⟩ : JacPoint Fq2)) rbG2d =
    (⟨⟨3599854672598296964551227694331975764836233195881680170537516873123606035874, 8410558841281022352097312685841201701174606155011642165914933418231394568341⟩, ⟨18763060960435373510455167614476364037217776806611823007741498020749041004286, 2517076031531303851468456937398523534430714724344493011986270354897725244353⟩, ⟨20483850078176458083142055880343933428020437154214118190565499303408279339174, 5954840311837317279502493269929634243164040616679928634161483541838882161965⟩⟩ : JacPoint Fq2) := by decide

set_option maxRecDepth 100000 in
/-- Stage 5 of the `vkBeta` subgroup-check fold. -/
lemma vkBetaStage5 :
    List.foldl (jacStep fq2Ops vkBetaJ) ((⟨⟨3599854672598296964551227694331975764836233195881680170537516873123606035874, 8410558841281022352097312685841201701174606155011642165914933418231394568341⟩, ⟨18763060960435373510455167614476364037217776806611823007741498020749041004286, 2517076031531303851468456937398523534430714724344493011986270354897725244353⟩, ⟨20483850078176458083142055880343933428020437154214118190565499303408279339174, 5954840311837317279502493269929634243164040616679928634161483541838882161965⟩⟩ : JacPoint Fq2)) rbG2e =
    (⟨⟨8104367316369165383980993823545154927076154240530090001181343601411013900681, 1706951480890884110984281565226496865270994228136905362249904385018099784039⟩, ⟨19286851192884303633509562006979935467044495572533538917552142884259249452434, 1070308862392934674210387364061011333783986674512177251223831483250670576624⟩, ⟨11295566895570909624875720875266680762153362324561697693424271850199200951861, 4386286682628929977004554836489014755783789276415769126655597736352285372604⟩⟩ : JacPoint Fq2) := by decide

set_option maxRecDepth 100000 in
/-- Stage 6 of the `vkBeta` subgroup-check fold. -/
lemma vkBetaStage6 :
    List.foldl (jacStep fq2Ops vkBetaJ) ((⟨⟨8104367316369165383980993823545154927076154240530090001181343601411013900681, 1706951480890884110984281565226496865270994228136905362249904385018099784039⟩, ⟨19286851192884303633509562006979935467044495572533538917552142884259249452434, 1070308862392934674210387364061011333783986674512177251223831483250670576624⟩, ⟨11295566895570909624875720875266680762153362324561697693424271850199200951861, 4386286682628929977004554836489014755783789276415769126655597736352285372604⟩⟩ : JacPoint Fq2)) rbG2f =
    (⟨⟨11407174020676964331718305323998113751076626775587212216894607931756447870564, 11079471873886665860302169928309714320157368567334469829346043601859911693985⟩, ⟨12072383407631546077675463016964502044110348874754737209526563303546918498438, 3809117663054095542556151495580866530739765113958849773148546222323674271359⟩, ⟨20874611404444727768644546299061155477590296303229469382364417884374199783499, 13624577663385530872189803213061260593979810026344463835355281196732215671662⟩⟩ : JacPoint Fq2) := by decide

set_option maxRecDepth 100000 in
/-- Stage 7 of the `vkBeta` subgroup-check fold. -/
lemma vkBetaStage7 :
    List.foldl (jacStep fq2Ops vkBetaJ) ((⟨⟨11407174020676964331718305323998113751076626775587212216894607931756447870564, 11079471873886665860302169928309714320157368567334469829346043601859911693985⟩, ⟨12072383407631546077675463016964502044110348874754737209526563303546918498438, 3809117663054095542556151495580866530739765113958849773148546222323674271359⟩, ⟨20874611404444727768644546299061155477590296303229469382364417884374199783499, 13624577663385530872189803213061260593979810026344463835355281196732215671662⟩⟩ : JacPoint Fq2)) rbG2g =
    (⟨⟨2785345949028207510534710987138453415286157522327045970187770501440061843992, 14026540612011120038188816374542965104647447485051260750613874687566261243391⟩, ⟨11661239197922580962041951913910916965393414943180538989561782233530613687812, 17108605913220252269708699205659474069146240670348533525611172720538636481666⟩, ⟨10727360687577447625640085437424097024813260125713660302914340104366955214148, 18335562931060912133022988282508041555413601704030392921330019480035903437785⟩⟩ : JacPoint Fq2) := by decide

set_option maxRecDepth 100000 in
/-- Stage 8 of the `vkBeta` subgroup-check fold. -/
lemma vkBetaStage8 :
    List.foldl (jacStep fq2Ops vkBetaJ) ((⟨⟨2785345949028207510534710987138453415286157522327045970187770501440061843992, 14026540612011120038188816374542965104647447485051260750613874687566261243391⟩, ⟨11661239197922580962041951913910916965393414943180538989561782233530613687812, 17108605913220252269708699205659474069146240670348533525611172720538636481666⟩, ⟨10727360687577447625640085437424097024813260125713660302914340104366955214148, 18335562931060912133022988282508041555413601704030392921330019480035903437785⟩⟩ : JacPoint Fq2)) rbG2h =
    (⟨⟨1, 0⟩, ⟨1, 0⟩, ⟨0, 0⟩⟩ : JacPoint Fq2) := by decide

/-- The `vkBeta` verifying-key point passes the subgroup check. -/
lemma vkBeta_insubgroup : g2InSubgroup ⟨vkBetaJ.x, vkBetaJ.y, false⟩ = true := by
  unfold g2InSubgroup jacMul
  rw [show g2ToJac ⟨vkBetaJ.x, vkBetaJ.y, false⟩ = vkBetaJ from rfl]
  rw [rBits_chunks8, List.foldl_append, List.foldl_append, List.foldl_append,
      List.foldl_append, List.foldl_append, List.foldl_append, List.foldl_append,
      vkBetaStage1, vkBetaStage2, vkBetaStage3, vkBetaStage4, vkBetaStage5,
      vkBetaStage6, vkBetaStage7, vkBetaStage8]
  decide

/-- The `vkDelta` G2 point in Jacobian coordinates. -/
def vkDeltaJ : JacPoint Fq2 :=
  ⟨⟨19928663713463533589216209779412278386769407450988172849262535478593422929698, 19916519943909223643323234301580053157586699704876134064841182937085943926141⟩, ⟨4584600978911428195337731119171761277167808711062125916470525050324985708782, 903010326261527050999816348900764705196723158942686053018929539519969664840⟩, ⟨1, 0⟩⟩

set_option maxRecDepth 100000 in
/-- Stage 1 of the `vkDelta` subgroup-check fold. -/
lemma vkDeltaStage1 :
    List.foldl (jacStep fq2Ops vkDeltaJ) (jacZero fq2Ops) rbG2a =
    (⟨⟨6006773991957998069884503187099062060530689033554963659291324227565630212056, 15217019234999409490897451163390284947783148694625752497298729299402015677213⟩, ⟨9835132538266522828353209130349140180584473517620380651567714973733334212601, 12387258746595648420441412260151427266666925925986702558647332505121107182571⟩, ⟨17704149857855644005406072760028746020086030517895283712295133932790480282430, 15966160970585520983172032831170731145978907344879301729225998665513082834698⟩⟩ : JacPoint Fq2) := by decide

set_option maxRecDepth 100000 in
/-- Stage 2 of the `vkDelta` subgroup-check fold. -/
lemma vkDeltaStage2 :
    List.foldl (jacStep fq2Ops vkDeltaJ) ((⟨⟨6006773991957998069884503187099062060530689033554963659291324227565630212056, 15217019234999409490897451163390284947783148694625752497298729299402015677213⟩, ⟨9835132538266522828353209130349140180584473517620380651567714973733334212601, 12387258746595648420441412260151427266666925925986702558647332505121107182571⟩, ⟨17704149857855644005406072760028746020086030517895283712295133932790480282430, 15966160970585520983172032831170731145978907344879301729225998665513082834698⟩⟩ : JacPoint Fq2)) rbG2b =
    (⟨⟨7288992866097245682968282929498428007571535743810519754836336200674160216519, 15502807773936842257664009942308995766811075684113082185827649174272238173711⟩, ⟨7683933325743683593021969966378221053694204856653027674382741023360113621116, 1972667542051892233187041912372679747271069581158361257929441218747238547192⟩, ⟨8255228568103886147347224689839761426583407729057785449754346116620542885665, 15667959622515036322586064705866103013713146528224943885656200721443429312188⟩⟩ : JacPoint Fq2) := by decide

set_option maxRecDepth 100000 in
/-- Stage 3 of the `vkDelta` subgroup-check fold. -/
lemma vkDeltaStage3 :
    List.foldl (jacStep fq2Ops vkDeltaJ) ((⟨⟨7288992866097245682968282929498428007571535743810519754836336200674160216519, 15502807773936842257664009942308995766811075684113082185827649174272238173711⟩, ⟨7683933325743683593021969966378221053694204856653027674382741023360113621116, 1972667542051892233187041912372679747271069581158361257929441218747238547192⟩, ⟨8255228568103886147347224689839761426583407729057785449754346116620542885665, 15667959622515036322586064705866103013713146528224943885656200721443429312188⟩⟩ : JacPoint Fq2)) rbG2c =
    (⟨⟨2756115118338834256093611553538668184880997230128735419028081918340017588135, 20055704677266241119877480045662526792903063154218771521614061942212531731152⟩, ⟨20771865843346333512435470420366303238467305925953594081116669376938088486455, 6592464150671240483679636473542193757932982675873046261367313134450563744523⟩, ⟨14368467880285783199287793207491171830893463310471085461875813130406170778757, 9450465239065330611053783398861841926237707469416551533836900169418362011284⟩⟩ : JacPoint Fq2) := by decide

set_option maxRecDepth 100000 in
/-- Stage 4 of the `vkDelta` subgroup-check fold. -/
lemma vkDeltaStage4 :
    List.foldl (jacStep fq2Ops vkDeltaJ) ((⟨⟨2756115118338834256093611553538668184880997230128735419028081918340017588135, 20055704677266241119877480045662526792903063154218771521614061942212531731152⟩, ⟨20771865843346333512435470420366303238467305925953594081116669376938088486455, 6592464150671240483679636473542193757932982675873046261367313134450563744523⟩, ⟨14368467880285783199287793207491171830893463310471085461875813130406170778757, 9450465239065330611053783398861841926237707469416551533836900169418362011284⟩⟩ : JacPoint Fq2)) rbG2d =
    (⟨⟨640267300738467070011751920957932383107425396421115814021362669399034508802, 1374228200735014603788929354533396306592426613444898814976950916718547532100⟩, ⟨15458971554137474299709260146536244798177953366844366660147886726067320000520, 20799910162070251207588029394486698279150660895163623379329142074480060771426⟩, ⟨21584217641054282289762904146771224218857601250086417545140982516463121389227, 12766812373385632833397945710806413799028994289856690756498764995980543974424⟩⟩ : JacPoint Fq2) := by decide

set_option maxRecDepth 100000 in
/-- Stage 5 of the `vkDelta` subgroup-check fold. -/
lemma vkDeltaStage5 :
    List.foldl (jacStep fq2Ops vkDeltaJ) ((⟨⟨640267300738467070011751920957932383107425396421115814021362669399034508802, 1374228200735014603788929354533396306592426613444898814976950916718547532100⟩, ⟨15458971554137474299709260146536244798177953366844366660147886726067320000520, 20799910162070251207588029394486698279150660895163623379329142074480060771426⟩, ⟨21584217641054282289762904146771224218857601250086417545140982516463121389227, 12766812373385632833397945710806413799028994289856690756498764995980543974424⟩⟩ : JacPoint Fq2)) rbG2e =
    (⟨⟨15452550696501665229314406362284026448738064882495238295964429757789068516477, 10128506668043622547083720817027746875737922753902540870217213798217559008874⟩, ⟨3621294689902013031603741427026940582627790953769842528801447465840380386991, 345187486007975143403102202341276522193034358594363793495120868564999595994⟩, ⟨19943853871915496653759654051161643123283264408139712999470445104072914057785, 2905314903891470288739711217376737019312934436700860322045237045252091619516⟩⟩ : JacPoint Fq2) := by decide

set_option maxRecDepth 100000 in
/-- Stage 6 of the `vkDelta` subgroup-check fold. -/
lemma vkDeltaStage6 :
    List.foldl (jacStep fq2Ops vkDeltaJ) ((⟨⟨15452550696501665229314406362284026448738064882495238295964429757789068516477, 10128506668043622547083720817027746875737922753902540870217213798217559008874⟩, ⟨3621294689902013031603741427026940582627790953769842528801447465840380386991, 345187486007975143403102202341276522193034358594363793495120868564999595994⟩, ⟨19943853871915496653759654051161643123283264408139712999470445104072914057785, 2905314903891470288739711217376737019312934436700860322045237045252091619516⟩⟩ : JacPoint Fq2)) rbG2f =
    (⟨⟨18511918679290546658539815420916147530456875592598563469035016333881158080932, 15877567041394643673644362879693104767575872384652589881109400740801274468571⟩, ⟨355552903248515346217443716081506925659949802360429346015005786177329182621, 6317158706654554579203192880270386576568561639667346021280326712861802915468⟩, ⟨6330218815837725994721484338779754837978042443892352939691882165908390877733, 6509769757295523918020946385791419176993516900691846779481264421551706713283⟩⟩ : JacPoint Fq2) := by decide

set_option maxRecDepth 100000 in
/-- Stage 7 of the `vkDelta` subgroup-check fold. -/
lemma vkDeltaStage7 :
    List.foldl (jacStep fq2Ops vkDeltaJ) ((⟨⟨18511918679290546658539815420916147530456875592598563469035016333881158080932, 15877567041394643673644362879693104767575872384652589881109400740801274468571⟩, ⟨355552903248515346217443716081506925659949802360429346015005786177329182621, 6317158706654554579203192880270386576568561639667346021280326712861802915468⟩, ⟨6330218815837725994721484338779754837978042443892352939691882165908390877733, 6509769757295523918020946385791419176993516900691846779481264421551706713283⟩⟩ : JacPoint Fq2)) rbG2g =
    (⟨⟨20025942101988420020115727484660654933055278228637536341591573001863484176938, 11528764146940488080689526850638238740411419314111963881629200360886417701516⟩, ⟨5763037105697332428981845231012774666428538470324426672880832705807480030819, 3305959304905751058451737279961296265890224620743185414856436214514913876126⟩, ⟨7979684800692871952251309174558469057070181731401522704368252737286869337509, 5731051713527688075968258315308793037674992715641266891627702647002746363166⟩⟩ : JacPoint Fq2) := by decide

set_option maxRecDepth 100000 in
/-- Stage 8 of the `vkDelta` subgroup-check fold. -/
lemma vkDeltaStage8 :
    List.foldl (jacStep fq2Ops vkDeltaJ) ((⟨⟨20025942101988420020115727484660654933055278228637536341591573001863484176938, 11528764146940488080689526850638238740411419314111963881629200360886417701516⟩, ⟨5763037105697332428981845231012774666428538470324426672880832705807480030819, 3305959304905751058451737279961296265890224620743185414856436214514913876126⟩, ⟨7979684800692871952251309174558469057070181731401522704368252737286869337509, 5731051713527688075968258315308793037674992715641266891627702647002746363166⟩⟩ : JacPoint Fq2)) rbG2h =
    (⟨⟨1, 0⟩, ⟨1, 0⟩, ⟨0, 0⟩⟩ : JacPoint Fq2) := by decide

/-- The `vkDelta` verifying-key point passes the subgroup check. -/
lemma vkDelta_insubgroup : g2InSubgroup ⟨vkDeltaJ.x, vkDeltaJ.y, false⟩ = true := by
  unfold g2InSubgroup jacMul
  rw [show g2ToJac ⟨vkDeltaJ.x, vkDeltaJ.y, false⟩ = vkDeltaJ from rfl]
  rw [rBits_chunks8, List.foldl_append, List.foldl_append, List.foldl_append,
      List.foldl_append, List.foldl_append, List.foldl_append, List.foldl_append,
      vkDeltaStage1, vkDeltaStage2, vkDeltaStage3, vkDeltaStage4, vkDeltaStage5,
      vkDeltaStage6, vkDeltaStage7, vkDeltaStage8]
  decide

set_option maxRecDepth 1000000 in
/-- Every point constant of the fixed verifying key is on its curve and in
the prime-order subgroup, so the assertions inside the arkworks constructors
used by `get_ark_verifying_key` all pass. -/
theorem vk_points_valid :
    (g1IsOnCurve get_ark_verifying_key.alpha_g1 = true ∧
     g1InSubgroup get_ark_verifying_key.alpha_g1 = true) ∧
    (g2IsOnCurve get_ark_verifying_key.beta_g2 = true ∧
     g2InSubgroup get_ark_verifying_key.beta_g2 = true) ∧
    (g2IsOnCurve get_ark_verifying_key.gamma_g2 = true ∧
     g2InSubgroup get_ark_verifying_key.gamma_g2 = true) ∧
    (g2IsOnCurve get_ark_verifying_key.delta_g2 = true ∧
     g2InSubgroup get_ark_verifying_key.delta_g2 = true) ∧
    ∀ p ∈ get_ark_verifying_key.gamma_abc_g1,
      g1IsOnCurve p = true ∧ g1InSubgroup p = true := by
  refine ⟨⟨by decide, vkAlpha_insubgroup⟩, ⟨by decide, vkBeta_insubgroup⟩,
    ⟨by decide, g2gen_insubgroup⟩, ⟨by decide, vkDelta_insubgroup⟩, ?_⟩
  intro p hp
  rw [show get_ark_verifying_key.gamma_abc_g1 =
      [⟨6698887085900109660417671413804888867145870700073340970189635830129386206569,
        10431087902009508261375793061696708147989126018612269070732549055898651692604, false⟩,
       ⟨20225609417084538563062516991929114218412992453664808591983416996515711931386,
        3236310410959095762960658876334609343091075204896196791007975095263664214628, false⟩]
      from rfl] at hp
  simp only [List.mem_cons, List.not_mem_nil, or_false] at hp
  rcases hp with rfl | rfl
  · exact ⟨by decide, vkAbc0_insubgroup⟩
  · exact ⟨by decide, vkAbc1_insubgroup⟩

/-! ## Helper lemmas -/

/-- A seal shorter than 256 bytes always aborts the parse: the final
`&seal_bytes[224..256]` index (at the latest) is out of range. -/
lemma from_seal_short {s : List Nat} (h : s.length < 256) : from_seal s = none := by
  have h8 : sliceRange s 224 256 = none := by
    unfold sliceRange
    rw [if_neg]
    omega
  simp only [from_seal, Option.bind_eq_bind]
  rw [Option.bind_eq_none]; intro xa _
  rw [Option.bind_eq_none]; intro ya _
  rw [Option.bind_eq_none]; intro a _
  rw [Option.bind_eq_none]; intro xb0 _
  rw [Option.bind_eq_none]; intro xb1 _
  rw [Option.bind_eq_none]; intro bx _
  rw [Option.bind_eq_none]; intro yb0 _
  rw [Option.bind_eq_none]; intro yb1 _
  rw [Option.bind_eq_none]; intro by2 _
  rw [Option.bind_eq_none]; intro b _
  rw [Option.bind_eq_none]; intro xc _
  rw [h8]
  rfl

/-- Sub-slices below offset 256 agree between lists agreeing on their first
256 entries. -/
lemma seg_congr {s t : List Nat} (h : s.take 256 = t.take 256) {a b : Nat}
    (hab : a ≤ b) (hb : b ≤ 256) : seg s a b = seg t a b := by
  unfold seg
  rw [List.take_drop, List.take_drop]
  have hpl : a + (b - a) = b := by omega
  rw [hpl]
  have hs : s.take b = t.take b := by
    calc s.take b = (s.take 256).take b := by
          rw [List.take_take]
          congr 1
          omega
    _ = (t.take 256).take b := by rw [h]
    _ = t.take b := by
          rw [List.take_take]
          congr 1
          omega
  rw [hs]

/-- The parse result only looks at the first 256 bytes. -/
lemma from_seal_take_congr {s t : List Nat} (hs : 256 ≤ s.length)
    (ht : 256 ≤ t.length) (h : s.take 256 = t.take 256) :
    from_seal s = from_seal t := by
  rw [from_seal_char s hs, from_seal_char t ht]
  rw [show sealA s = sealA t from by
        unfold sealA
        rw [seg_congr h (by omega) (by omega), seg_congr h (by omega) (by omega)]]
  rw [show sealB s = sealB t from by
        unfold sealB
        rw [seg_congr h (by omega) (by omega), seg_congr h (by omega) (by omega),
            seg_congr h (by omega) (by omega), seg_congr h (by omega) (by omega)]]
  rw [show sealC s = sealC t from by
        unfold sealC
        rw [seg_congr h (by omega) (by omega), seg_congr h (by omega) (by omega)]]

/-- SHA-256 digests are 32 bytes long. -/
lemma sha256_length (msg : List Nat) : (sha256 msg).length = 32 := by
  simp [sha256, sha256StateBytes, word4BE]

/-- The BLAKE3 compression output is 16 words. -/
lemma b3compress_length (cv block : List Nat) (c l fl : Nat) :
    (b3compress cv block c l fl).length = 16 := by
  simp [b3compress]

/-- Flattening little-endian word serializations gives 4 bytes per word. -/
lemma flatten_word4LE_length : ∀ ws : List Nat,
    ((ws.map word4LE).flatten).length = 4 * ws.length := by
  intro ws
  induction ws with
  | nil => rfl
  | cons w ws ih =>
      simp only [List.map_cons, List.flatten_cons, List.length_append, ih,
        List.length_cons, word4LE, List.length_nil]
      omega

/-- BLAKE3 digests are 32 bytes long. -/
lemma blake3hash_length (input : List Nat) : (blake3hash input).length = 32 := by
  unfold blake3hash B3Output.rootBytes
  rw [flatten_word4LE_length, List.length_take, b3compress_length]
  rfl

/-- Every byte of a little-endian word serialization is below 256. -/
lemma word4LE_lt {w b : Nat} (h : b ∈ word4LE w) : b < 256 := by
  simp only [word4LE, List.mem_cons, List.not_mem_nil, or_false] at h
  rcases h with h | h | h | h <;>
    exact h ▸ Nat.lt_succ_of_le Nat.and_le_right

/-- Every byte of a BLAKE3 digest is below 256. -/
lemma blake3hash_bytes_lt {input : List Nat} {b : Nat} (h : b ∈ blake3hash input) :
    b < 256 := by
  unfold blake3hash B3Output.rootBytes at h
  rw [List.mem_flatten] at h
  obtain ⟨l, hl, hbl⟩ := h
  rw [List.mem_map] at hl
  obtain ⟨w, _, rfl⟩ := hl
  exact word4LE_lt hbl

/-- The big-endian value of a byte string is below `256 ^ length`. -/
lemma beNat_lt_pow : ∀ (l : List Nat), (∀ b ∈ l, b < 256) →
    ∀ acc, List.foldl (fun a b => a * 256 + b) acc l < (acc + 1) * 256 ^ l.length
  | [], _, acc => by simp
  | b :: bs, h, acc => by
    have hb : b < 256 := h b (by simp)
    have ih := beNat_lt_pow bs (fun x hx => h x (by simp [hx])) (acc * 256 + b)
    simp only [List.foldl_cons, List.length_cons]
    calc List.foldl (fun a b => a * 256 + b) (acc * 256 + b) bs
        < (acc * 256 + b + 1) * 256 ^ bs.length := ih
      _ ≤ ((acc + 1) * 256) * 256 ^ bs.length := by
          have : acc * 256 + b + 1 ≤ (acc + 1) * 256 := by omega
          exact Nat.mul_le_mul_right _ this
      _ = (acc + 1) * 256 ^ (bs.length + 1) := by ring

/-! ## Inversion lemmas for `from_seal` successes -/

/-- A successful parse decodes exactly the fixed byte-range layout. -/
lemma from_seal_some_eq {s : List Nat} {p : Proof} (hs : 256 ≤ s.length)
    (hp : from_seal s = some p) : p = ⟨sealA s, sealB s, sealC s⟩ := by
  rw [from_seal_char s hs] at hp
  split at hp
  · split at hp
    · split at hp
      · injection hp with h
        exact h.symm
      · exact absurd hp (by simp)
    · exact absurd hp (by simp)
  · exact absurd hp (by simp)

/-- A successful parse only returns validated points. -/
lemma from_seal_some_valid {s : List Nat} {p : Proof} (hp : from_seal s = some p) :
    (g1IsOnCurve p.a = true ∧ g1InSubgroup p.a = true) ∧
    (g2IsOnCurve p.b = true ∧ g2InSubgroup p.b = true) ∧
    (g1IsOnCurve p.c = true ∧ g1InSubgroup p.c = true) := by
  by_cases hs : 256 ≤ s.length
  · rw [from_seal_char s hs] at hp
    split at hp
    next h1 =>
      split at hp
      next h2 =>
        split at hp
        next h3 =>
          injection hp with h
          subst h
          rw [Bool.and_eq_true] at h1 h2 h3
          exact ⟨⟨h1.1, h1.2⟩, ⟨h2.1, h2.2⟩, ⟨h3.1, h3.2⟩⟩
        next => exact absurd hp (by simp)
      next => exact absurd hp (by simp)
    next => exact absurd hp (by simp)
  · rw [from_seal_short (by omega)] at hp
    exact absurd hp (by simp)

/-- Big-endian values of 31 in-range bytes are below the scalar modulus. -/
lemma beNat_31_lt {l : List Nat} (hlen : l.length = 31) (hb : ∀ b ∈ l, b < 256) :
    beNat l < rBn := by
  have h2 := beNat_lt_pow l hb 0
  have h3 : beNat l < 256 ^ 31 := by
    simp only [beNat]
    calc List.foldl (fun a b => a * 256 + b) 0 l
        < (0 + 1) * 256 ^ l.length := h2
      _ = 256 ^ 31 := by rw [hlen]; ring
  calc beNat l < 256 ^ 31 := h3
    _ < rBn := by decide

/-! ## The claims -/

/-- C1: for every 32-byte program identity, `calculate_succinct_output_prefix`
returns the 32-byte SHA-256 digest of the concatenation: the succinct
control-root digest with the bit order of every byte reversed (32 bytes), then
the program identity (32 bytes), then the canonical state digest of the
success halt state `{pc = 0, merkle_root = all-zero digest}` (32 bytes), then
the fixed BN254 identity control-ID constant (32 bytes).  The control
root, state-digest function and control-ID constant of the backend are the
parameters of the embedding. -/
theorem claim_C1_succinct_output_is_sha256_of_concat
    (stateDigest : SystemState → List Nat) (cr cid mid : List Nat)
    (_hmid : mid.length = 32) :
    calculate_succinct_output_prefix stateDigest cr cid mid =
      sha256 (cr.map reverse_bits8 ++ mid ++
              stateDigest ⟨0, List.replicate 32 0⟩ ++ cid) ∧
    ( calculate_succinct_output_prefix stateDigest cr cid mid).length = 32 := by
  constructor
  · simp [ calculate_succinct_output_prefix, Sha256Hasher.new, Sha256Hasher.update,
      Sha256Hasher.finalize, List.append_assoc]
  · simp [ calculate_succinct_output_prefix, Sha256Hasher.new, Sha256Hasher.update,
      Sha256Hasher.finalize, sha256_length]

set_option maxRecDepth 1000000 in
/-- Witness for C1 at a concrete 32-byte identity and concrete backend
parameters. -/
theorem claim_C1_witness :
    (List.replicate 32 (2 : Nat)).length = 32 ∧
    ( calculate_succinct_output_prefix (fun st => st.merkle_root)
        (List.replicate 32 255) (List.replicate 32 1) (List.replicate 32 2) =
      sha256 ((List.replicate 32 255).map reverse_bits8 ++ List.replicate 32 2 ++
        (fun st : SystemState => st.merkle_root) ⟨0, List.replicate 32 0⟩ ++
        List.replicate 32 1) ∧
      ( calculate_succinct_output_prefix (fun st => st.merkle_root)
        (List.replicate 32 255) (List.replicate 32 1) (List.replicate 32 2)).length = 32) :=
  ⟨by decide, claim_C1_succinct_output_is_sha256_of_concat
    (fun st => st.merkle_root) (List.replicate 32 255) (List.replicate 32 1)
    (List.replicate 32 2) (by decide)⟩

set_option maxRecDepth 1000000 in
/-- C2: for every 32-byte prefix and journal, the public-input scalar is the
BLAKE3 digest of prefix ++ journal truncated to its first 31 bytes,
read as a big-endian integer and reduced mod the scalar-field order; and
BLAKE3 is a different hash function from the SHA-256 used for the output
prefix. -/
theorem claim_C2_public_input_scalar_derivation (pfx journal : List Nat)
    (_hp : pfx.length = 32) :
    public_input_scalar pfx journal =
      beNat ((blake3hash (pfx ++ journal)).take 31) % rBn ∧
    (blake3hash (pfx ++ journal)).length = 32 ∧
    blake3hash [] ≠ sha256 [] := by
  refine ⟨?_, blake3hash_length _, by decide⟩
  simp [public_input_scalar, expected_output_bytes, Blake3Hasher.new,
    Blake3Hasher.update, Blake3Hasher.finalize, from_be_bytes_mod_order]

set_option maxRecDepth 1000000 in
/-- Witness for C2 at a concrete prefix and journal. -/
theorem claim_C2_witness :
    (List.replicate 32 (0 : Nat)).length = 32 ∧
    (public_input_scalar (List.replicate 32 0) [1, 2, 3] =
      beNat ((blake3hash (List.replicate 32 0 ++ [1, 2, 3])).take 31) % rBn ∧
    (blake3hash (List.replicate 32 0 ++ [1, 2, 3])).length = 32 ∧
    blake3hash [] ≠ sha256 []) :=
  ⟨by decide, claim_C2_public_input_scalar_derivation (List.replicate 32 0)
    [1, 2, 3] (by decide)⟩

/-- C3: a 256-byte seal that parses yields the layout
`A.x = [0,32)`, `A.y = [32,64)`, `C.x = [192,224)`, `C.y = [224,256)`, all
big-endian, and the extension coordinates of `B` use swapped halves: the
component passed first to the extension constructor (spec convention: the
high one, arkworks `c0`) comes from `[96,128)` and `[160,192)`, the second
(low, `c1`) from `[64,96)` and `[128,160)`. -/
theorem claim_C3_seal_layout (s : List Nat) (h : s.length = 256) (p : Proof)
    (hp : from_seal s = some p) :
    p.a.x = from_be_bytes_mod_order qBn (seg s 0 32) ∧
    p.a.y = from_be_bytes_mod_order qBn (seg s 32 64) ∧
    p.b.x.c0 = from_be_bytes_mod_order qBn (seg s 96 128) ∧
    p.b.x.c1 = from_be_bytes_mod_order qBn (seg s 64 96) ∧
    p.b.y.c0 = from_be_bytes_mod_order qBn (seg s 160 192) ∧
    p.b.y.c1 = from_be_bytes_mod_order qBn (seg s 128 160) ∧
    p.c.x = from_be_bytes_mod_order qBn (seg s 192 224) ∧
    p.c.y = from_be_bytes_mod_order qBn (seg s 224 256) := by
  have he := from_seal_some_eq (by omega) hp
  subst he
  exact ⟨rfl, rfl, rfl, rfl, rfl, rfl, rfl, rfl⟩

set_option maxRecDepth 1000000 in
/-- Witness for C3 at the generator seal. -/
theorem claim_C3_witness :
    genSeal.length = 256 ∧ from_seal genSeal = some genProof ∧
    (genProof.a.x = from_be_bytes_mod_order qBn (seg genSeal 0 32) ∧
    genProof.a.y = from_be_bytes_mod_order qBn (seg genSeal 32 64) ∧
    genProof.b.x.c0 = from_be_bytes_mod_order qBn (seg genSeal 96 128) ∧
    genProof.b.x.c1 = from_be_bytes_mod_order qBn (seg genSeal 64 96) ∧
    genProof.b.y.c0 = from_be_bytes_mod_order qBn (seg genSeal 160 192) ∧
    genProof.b.y.c1 = from_be_bytes_mod_order qBn (seg genSeal 128 160) ∧
    genProof.c.x = from_be_bytes_mod_order qBn (seg genSeal 192 224) ∧
    genProof.c.y = from_be_bytes_mod_order qBn (seg genSeal 224 256)) :=
  ⟨by decide, from_seal_genSeal,
   claim_C3_seal_layout genSeal (by decide) genProof from_seal_genSeal⟩

set_option maxRecDepth 1000000 in
/-- Counterexample to C4 as stated: a 257-byte input does not fail — it
parses successfully (trailing bytes are ignored), so the statement that every
length other than 256 fails with `DecodeError::WrongLength` is false on the
code. -/
theorem claim_C4_counterexample :
    (genSeal ++ [0]).length ≠ 256 ∧ (from_seal (genSeal ++ [0])).isSome = true := by
  constructor
  · decide
  · rw [from_seal_take_congr (s := genSeal ++ [0]) (t := genSeal)
        (by decide) (by decide) (by decide)]
    rw [from_seal_genSeal]
    rfl

/-- C4 amended: the code has no `DecodeError` type at all.  An input shorter
than 256 bytes makes the parser abort (a slice-index panic, modelled as
`none`), so it never reaches pairing evaluation; an input of length ≥ 256 is
never rejected for its length — its parse result is determined by the first
256 bytes alone (succeeding or aborting only on the decoded point contents). -/
theorem claim_C4_amended_length_semantics (s t : List Nat)
    (hs : s.length < 256) (ht : 256 ≤ t.length) :
    from_seal s = none ∧ from_seal t = from_seal (t.take 256) := by
  refine ⟨from_seal_short hs, ?_⟩
  apply from_seal_take_congr ht
  · rw [List.length_take]
    omega
  · rw [List.take_take]
    simp

set_option maxRecDepth 1000000 in
/-- Witness for the amended C4 at the empty input (short case) and a 257-byte
extension of the generator seal (long case). -/
theorem claim_C4_witness :
    ([] : List Nat).length < 256 ∧ 256 ≤ (genSeal ++ [0]).length ∧
    (from_seal [] = none ∧
     from_seal (genSeal ++ [0]) = from_seal ((genSeal ++ [0]).take 256)) :=
  ⟨by decide, by decide,
   claim_C4_amended_length_semantics [] (genSeal ++ [0]) (by decide) (by decide)⟩

/-- C5: every 31-byte string (bytes < 256) reads as a big-endian integer
strictly below the scalar-field order, so the reduction in the public-input
derivation is the identity on that value. -/
theorem claim_C5_31_bytes_below_modulus (bytes : List Nat)
    (hlen : bytes.length = 31) (hb : ∀ b ∈ bytes, b < 256) :
    beNat bytes < rBn ∧
    from_be_bytes_mod_order rBn bytes = beNat bytes ∧
    ∀ pfx journal : List Nat,
      public_input_scalar pfx journal = beNat (expected_output_bytes pfx journal) := by
  have h1 : beNat bytes < rBn := beNat_31_lt hlen hb
  refine ⟨h1, ?_, ?_⟩
  · simp only [from_be_bytes_mod_order]
    exact Nat.mod_eq_of_lt h1
  · intro pfx journal
    have hlen2 : (expected_output_bytes pfx journal).length = 31 := by
      simp only [expected_output_bytes, Blake3Hasher.new, Blake3Hasher.update,
        Blake3Hasher.finalize, List.length_take, blake3hash_length]
      decide
    have hb2 : ∀ b ∈ expected_output_bytes pfx journal, b < 256 := by
      intro b hbm
      simp only [expected_output_bytes, Blake3Hasher.new, Blake3Hasher.update,
        Blake3Hasher.finalize] at hbm
      exact blake3hash_bytes_lt (List.mem_of_mem_take hbm)
    have h3 := beNat_31_lt hlen2 hb2
    simp only [public_input_scalar, from_be_bytes_mod_order]
    exact Nat.mod_eq_of_lt h3

/-- Witness for C5 at a concrete all-255 31-byte string. -/
theorem claim_C5_witness :
    (List.replicate 31 (255 : Nat)).length = 31 ∧
    (beNat (List.replicate 31 255) < rBn ∧
    from_be_bytes_mod_order rBn (List.replicate 31 255) = beNat (List.replicate 31 255) ∧
    ∀ pfx journal : List Nat,
      public_input_scalar pfx journal = beNat (expected_output_bytes pfx journal)) :=
  ⟨by decide, claim_C5_31_bytes_below_modulus (List.replicate 31 255) (by decide)
    (by decide)⟩

set_option maxRecDepth 1000000 in
/-- Counterexample to C6 as stated: the parser does not return a `Proof` for
arbitrary coordinate contents — the all-zero 256-byte seal aborts inside the
point constructor of the curve library (its on-curve assertion fails). -/
theorem claim_C6_counterexample :
    (List.replicate 256 (0 : Nat)).length = 256 ∧
    from_seal (List.replicate 256 0) = none := by
  exact ⟨by decide, by decide⟩

/-- C6 amended: the parsing code of the repository contains no on-curve check
of its own, but the affine constructors of the curve library assert validity, so
`from_seal` returns a proof only when all three points are on-curve and in
the prime-order subgroup, aborting otherwise; point validation is therefore
not deferred to pairing evaluation. -/
theorem claim_C6_amended_parser_validates_points (s : List Nat) (p : Proof)
    (hp : from_seal s = some p) :
    g1IsOnCurve p.a = true ∧ g1InSubgroup p.a = true ∧
    g2IsOnCurve p.b = true ∧ g2InSubgroup p.b = true ∧
    g1IsOnCurve p.c = true ∧ g1InSubgroup p.c = true := by
  have h := from_seal_some_valid hp
  exact ⟨h.1.1, h.1.2, h.2.1.1, h.2.1.2, h.2.2.1, h.2.2.2⟩

/-- Witness for the amended C6 at the generator seal. -/
theorem claim_C6_witness :
    from_seal genSeal = some genProof ∧
    (g1IsOnCurve genProof.a = true ∧ g1InSubgroup genProof.a = true ∧
    g2IsOnCurve genProof.b = true ∧ g2InSubgroup genProof.b = true ∧
    g1IsOnCurve genProof.c = true ∧ g1InSubgroup genProof.c = true) :=
  ⟨from_seal_genSeal,
   claim_C6_amended_parser_validates_points genSeal genProof from_seal_genSeal⟩

/-- C7: when the pairing equation does not hold for a well-formed proof, key
and input vector (the inputs prepare successfully and the final
exponentiation is defined), `verify_proof` returns the value `Except.ok
false` — proof rejected — rather than an error. -/
theorem claim_C7_false_on_failed_pairing {GT : Type} (eqGT : GT → GT → Bool)
    (mml : G1Affine → G2Affine → G1Affine → G2Affine → G1Affine → G2Affine → GT)
    (fe : GT → Option GT) (pvk : PreparedVerifyingKey GT) (pf : Proof)
    (inputs : List Nat) (g : JacPoint Nat) (t : GT)
    (hprep : prepare_inputs pvk.vk inputs = Except.ok g)
    (hfe : fe (mml pf.a pf.b (g1FromJac g) pvk.gamma_g2_neg_pc pf.c
      pvk.delta_g2_neg_pc) = some t)
    (hne : eqGT t pvk.alpha_g1_beta_g2 = false) :
    verify_proof eqGT mml fe pvk pf inputs = Except.ok false := by
  unfold verify_proof
  rw [hprep]
  show verify_proof_with_prepared_inputs eqGT mml fe pvk pf g = Except.ok false
  unfold verify_proof_with_prepared_inputs
  rw [hfe]
  simp only [hne]

/-- A small prepared key over `GT := Nat` for the C7 witness. -/
def c7pvk : PreparedVerifyingKey Nat :=
  ⟨⟨⟨0, 1, true⟩, ⟨⟨0, 0⟩, ⟨1, 0⟩, true⟩, ⟨⟨0, 0⟩, ⟨1, 0⟩, true⟩,
    ⟨⟨0, 0⟩, ⟨1, 0⟩, true⟩, [⟨1, 2, false⟩]⟩, 1,
   ⟨⟨0, 0⟩, ⟨1, 0⟩, true⟩, ⟨⟨0, 0⟩, ⟨1, 0⟩, true⟩⟩

/-- A dummy proof value for the C7 witness (no validation happens in
`verify_proof`). -/
def c7proof : Proof := ⟨⟨0, 1, true⟩, ⟨⟨0, 0⟩, ⟨1, 0⟩, true⟩, ⟨0, 1, true⟩⟩

/-- Witness for C7: with a trivial pairing engine whose Miller loop returns 0
and `alpha_g1_beta_g2 = 1`, the equation fails and `verify_proof` returns
`Except.ok false`. -/
theorem claim_C7_witness :
    prepare_inputs c7pvk.vk [] = Except.ok ⟨1, 2, 1⟩ ∧
    (fun a b : Nat => a == b) 0 c7pvk.alpha_g1_beta_g2 = false ∧
    verify_proof (fun a b : Nat => a == b) (fun _ _ _ _ _ _ => 0) some c7pvk
      c7proof [] = Except.ok false :=
  ⟨rfl, rfl,
   claim_C7_false_on_failed_pairing (fun a b : Nat => a == b)
     (fun _ _ _ _ _ _ => 0) some c7pvk c7proof [] ⟨1, 2, 1⟩ 0 rfl rfl rfl⟩

/-- C8: the `gamma_abc_g1` of the fixed verifying key has exactly 2 entries,
and with the single public-input scalar of the pipeline the arity precondition
holds,
so `prepare_inputs` never takes the `MalformedVerifyingKey`
(input-count-mismatch) branch. -/
theorem claim_C8_arity_precondition_holds :
    get_ark_verifying_key.gamma_abc_g1.length = 2 ∧
    ∀ s : Nat, (prepare_inputs get_ark_verifying_key [s]).isOk = true := by
  refine ⟨rfl, fun s => ?_⟩
  unfold prepare_inputs
  rw [if_neg]
  · rfl
  · exact fun hc => hc rfl

/-- C9: the output prefix and public-input derivation are deterministic pure
functions — equal inputs give bit-identical outputs. -/
theorem claim_C9_determinism (stateDigest : SystemState → List Nat)
    (cr cid m1 m2 p1 p2 j1 j2 : List Nat) (hm : m1 = m2) (hp : p1 = p2)
    (hj : j1 = j2) :
    calculate_succinct_output_prefix stateDigest cr cid m1 =
      calculate_succinct_output_prefix stateDigest cr cid m2 ∧
    public_input_scalar p1 j1 = public_input_scalar p2 j2 := by
  subst hm
  subst hp
  subst hj
  exact ⟨rfl, rfl⟩

/-- Witness for C9 at concrete equal inputs. -/
theorem claim_C9_witness :
    ([] : List Nat) = [] ∧
    ( calculate_succinct_output_prefix (fun _ => []) [] [] [] =
      calculate_succinct_output_prefix (fun _ => []) [] [] [] ∧
    public_input_scalar [] [] = public_input_scalar [] []) :=
  ⟨rfl, claim_C9_determinism (fun _ => []) [] [] [] [] [] [] [] [] rfl rfl rfl⟩

/-- C10: for inputs of length ≥ 256 the parse result depends only on the
first 256 bytes; trailing bytes are ignored, not rejected. -/
theorem claim_C10_first_256_bytes_determine_result (s t : List Nat)
    (hs : 256 ≤ s.length) (ht : 256 ≤ t.length) (h : s.take 256 = t.take 256) :
    from_seal s = from_seal t ∧ from_seal s = from_seal (s.take 256) := by
  refine ⟨from_seal_take_congr hs ht h, ?_⟩
  apply from_seal_take_congr hs
  · rw [List.length_take]
    omega
  · rw [List.take_take]
    simp

set_option maxRecDepth 1000000 in
/-- Witness for C10 at two extensions of the generator seal. -/
theorem claim_C10_witness :
    256 ≤ (genSeal ++ [7]).length ∧ 256 ≤ (genSeal ++ [8, 9]).length ∧
    (genSeal ++ [7]).take 256 = (genSeal ++ [8, 9]).take 256 ∧
    (from_seal (genSeal ++ [7]) = from_seal (genSeal ++ [8, 9]) ∧
     from_seal (genSeal ++ [7]) = from_seal ((genSeal ++ [7]).take 256)) :=
  ⟨by decide, by decide, by decide,
   claim_C10_first_256_bytes_determine_result (genSeal ++ [7]) (genSeal ++ [8, 9])
     (by decide) (by decide) (by decide)⟩
